import Mathlib

set_option maxRecDepth 100000

/-!
# Verification of the Genesis Pipeline orchestration core

A shallow embedding of the `langchain-agents-workflow` repository:

* `src/src/state.py`    — shared state (`GenesisState`, `create_initial_state`);
* `src/src/nodes.py`    — the six agent units (`agent_product_owner`, `agent_creative_director`,
  `agent_solutions_architect`, `agent_lead_developer`, `agent_growth_hacker`,
  `agent_onboarding_specialist`);
* `src/src/graph.py`    — the execution graph built by `create_genesis_graph`
  (five nodes; the onboarding specialist is not added to the graph);
* `src/main.py`         — the run driver `run_genesis_pipeline` and the exporter `save_output`.

External collaborators are modelled as parameters: the text-generation backend is an
opaque function from a prompt to a call result, `json.loads` is an opaque parse
function from a string to a JSON value, and the record store is a record of
fallible operations.  JSON numbers are modelled as integers (no claim involves
floating point).  Exceptions are modelled with `Except String`.
-/

/-- A parsed JSON value, the result of Python's `json.loads`.  Python dicts are
association lists in insertion order. -/
inductive JValue where
  | null : JValue
  | bool : Bool → JValue
  | num : Int → JValue
  | str : String → JValue
  | arr : List JValue → JValue
  | obj : List (String × JValue) → JValue

mutual

/-- Model of the external `json.dumps` serializer (a deterministic function of the
value; the exact spacing of the real library is immaterial to every claim). -/
def jsonDumps : JValue → String
  | JValue.null => "null"
  | JValue.bool b => if b then "true" else "false"
  | JValue.num n => toString n
  | JValue.str s => "\"" ++ s ++ "\""
  | JValue.arr xs => "[" ++ jsonDumpsArr xs ++ "]"
  | JValue.obj fs => "\x7b" ++ jsonDumpsObj fs ++ "\x7d"

/-- Serialize the elements of a JSON array, comma separated. -/
def jsonDumpsArr : List JValue → String
  | [] => ""
  | [x] => jsonDumps x
  | x :: xs => jsonDumps x ++ ", " ++ jsonDumpsArr xs

/-- Serialize the fields of a JSON object, comma separated. -/
def jsonDumpsObj : List (String × JValue) → String
  | [] => ""
  | [(k, v)] => "\"" ++ k ++ "\": " ++ jsonDumps v
  | (k, v) :: fs => "\"" ++ k ++ "\": " ++ jsonDumps v ++ ", " ++ jsonDumpsObj fs

end

mutual

/-- Model of Python's `repr` on objects obtained from parsed JSON. -/
def pyRepr : JValue → String
  | JValue.null => "None"
  | JValue.bool b => if b then "True" else "False"
  | JValue.num n => toString n
  | JValue.str s => "'" ++ s ++ "'"
  | JValue.arr xs => "[" ++ pyReprArr xs ++ "]"
  | JValue.obj fs => "\x7b" ++ pyReprObj fs ++ "\x7d"

/-- `repr` of the elements of a Python list. -/
def pyReprArr : List JValue → String
  | [] => ""
  | [x] => pyRepr x
  | x :: xs => pyRepr x ++ ", " ++ pyReprArr xs

/-- `repr` of the items of a Python dict. -/
def pyReprObj : List (String × JValue) → String
  | [] => ""
  | [(k, v)] => "'" ++ k ++ "': " ++ pyRepr v
  | (k, v) :: fs => "'" ++ k ++ "': " ++ pyRepr v ++ ", " ++ pyReprObj fs

end

/-- Model of Python's `str()` as used when a value is interpolated into an f-string. -/
def pyStr : JValue → String
  | JValue.str s => s
  | v => pyRepr v

/-- Model of Python's `dict.get(key, default)`: an `AttributeError` when the
receiver is not a dict, otherwise the value under `key` or the default. -/
def pyGet (v : JValue) (key : String) (dflt : JValue) : Except String JValue :=
  match v with
  | JValue.obj fs => Except.ok ((fs.lookup key).getD dflt)
  | _ => Except.error "AttributeError: get"

/-- Model of Python's `len()` on a parsed JSON value: defined on dicts, lists and
strings, a `TypeError` otherwise. -/
def pyLen (v : JValue) : Except String Nat :=
  match v with
  | JValue.obj fs => Except.ok fs.length
  | JValue.arr xs => Except.ok xs.length
  | JValue.str s => Except.ok s.length
  | _ => Except.error "TypeError: len"

/-- Model of Python's `list(d.keys())`: an `AttributeError` when not a dict. -/
def pyKeys (v : JValue) : Except String (List String) :=
  match v with
  | JValue.obj fs => Except.ok (fs.map Prod.fst)
  | _ => Except.error "AttributeError: keys"

/-- Model of `os.path.join(a, b)`: keeps `b` alone when it is absolute
(starts with a slash). -/
def pyJoin (a b : String) : String :=
  if b.data.head? = some '/' then b else a ++ "/" ++ b

/-- A message kept in the shared state's history.  Only AI responses are ever
appended by the agents; LangChain gives each a unique identifier, modelled as a
natural number carried by the backend's call result. -/
structure ChatMessage where
  content : String
  id : Nat
deriving DecidableEq

/-- One step of LangGraph's `add_messages` reducer: replace the message with a
matching id, or append. -/
def upsertMessage (acc : List ChatMessage) (m : ChatMessage) : List ChatMessage :=
  if acc.any (fun x => x.id == m.id) then
    acc.map (fun x => if x.id == m.id then m else x)
  else acc ++ [m]

/-- LangGraph's `add_messages` channel reducer (the `Annotated` reducer of the
`messages` field of `GenesisState`): merge the update into the existing list by id. -/
def addMessages (left right : List ChatMessage) : List ChatMessage :=
  right.foldl upsertMessage left

/-- The `execution_metadata` mapping of `GenesisState`.  `project_id` is `none`
while the key is absent (it is added by the run driver). -/
structure ExecMeta where
  start_time : Option String
  end_time : Option String
  total_tokens : Nat
  agent_timings : List (String × Nat)
  project_id : Option Nat

/-- The shared state of `src/src/state.py` (`GenesisState`).  `install_guide` is
not a key of the `TypedDict`; it is written dynamically by
`agent_onboarding_specialist` and tested with `"install_guide" in final_state`
by `save_output`, hence an `Option` here (`none` = key absent). -/
structure GenesisState where
  user_idea : String
  prd_content : String
  brand_assets : JValue
  architecture_map : JValue
  source_code : JValue
  marketing_plan : String
  install_guide : Option String
  messages : List ChatMessage
  execution_metadata : ExecMeta

/-- `create_initial_state` of `src/src/state.py`. -/
def create_initial_state (user_idea : String) : GenesisState :=
  { user_idea := user_idea
    prd_content := ""
    brand_assets := JValue.obj []
    architecture_map := JValue.obj []
    source_code := JValue.obj []
    marketing_plan := ""
    install_guide := none
    messages := []
    execution_metadata :=
      { start_time := none
        end_time := none
        total_tokens := 0
        agent_timings := []
        project_id := none } }

/-- The prompt of one external generation call: the contents of the
`SystemMessage` and `HumanMessage`, and whether a JSON response format was
requested via `llm.bind(response_format=...)`. -/
structure LLMCall where
  system : String
  human : String
  jsonMode : Bool
deriving DecidableEq

/-- The outcome of one external generation call: a response (content, token
usage, and the unique id of the response message), or a raised error
(timeout, network failure, ...). -/
inductive CallResult where
  | ok : String → Nat → Nat → CallResult
  | error : String → CallResult

/-- The partial state update returned by one agent (the dict returned by the
node function).  A `none` field is a key the dict does not contain. -/
structure AgentUpdate where
  prd_content : Option String := none
  brand_assets : Option JValue := none
  architecture_map : Option JValue := none
  source_code : Option JValue := none
  marketing_plan : Option String := none
  install_guide : Option String := none
  messages : List ChatMessage := []

/-- LangGraph's merge of a node's returned dict into the state: each plain
channel takes the new value when the update carries one, and the `messages`
channel is merged with the `add_messages` reducer. -/
def applyUpdate (s : GenesisState) (u : AgentUpdate) : GenesisState :=
  { user_idea := s.user_idea
    prd_content := u.prd_content.getD s.prd_content
    brand_assets := u.brand_assets.getD s.brand_assets
    architecture_map := u.architecture_map.getD s.architecture_map
    source_code := u.source_code.getD s.source_code
    marketing_plan := u.marketing_plan.getD s.marketing_plan
    install_guide := match u.install_guide with
      | some g => some g
      | none => s.install_guide
    messages := addMessages s.messages u.messages
    execution_metadata := s.execution_metadata }

/-! ## Prompt contracts of the six agent units (`src/src/nodes.py`) -/

/-- The fixed system prompt of `agent_product_owner`. -/
def poSystemPrompt : String := "You are a Senior Product Owner with 15 years of experience at top tech companies.
          Your task is to transform a raw user idea into a comprehensive Product Requirements Document (PRD).

          The PRD must include:
          1. Executive Summary
          2. Problem Statement
          3. Target Users & Personas
          4. Core Features (MVP and Future)
          5. User Stories (at least 5)
          6. Success Metrics (KPIs)
          7. Technical Constraints
          8. Timeline Estimate

          Be specific, actionable, and realistic. Format the output in clear markdown."

/-- The fixed system prompt of `agent_creative_director`. -/
def cdSystemPrompt : String := "You are a Creative Director specializing in brand identity and visual design.
          Based on the user's idea and PRD, create a comprehensive brand guide.

          Return your response as a JSON object with this structure:
          \x7b
            \"brand_name\": \"suggested brand name\",
            \"tagline\": \"compelling tagline\",
            \"color_palette\": \x7b
              \"primary\": \"#HEX\",
              \"secondary\": \"#HEX\",
              \"accent\": \"#HEX\",
              \"background\": \"#HEX\",
              \"text\": \"#HEX\"
            \x7d,
            \"typography\": \x7b
              \"heading_font\": \"font name\",
              \"body_font\": \"font name\"
            \x7d,
            \"visual_style\": \"description of visual direction\",
            \"logo_prompt\": \"detailed prompt for AI logo generation\",
            \"ui_mockup_prompts\": [\"prompt1\", \"prompt2\", \"prompt3\"]
          \x7d

          Be creative but align with the product's purpose and target audience."

/-- The fixed system prompt of `agent_solutions_architect`. -/
def saSystemPrompt : String := "You are a Solutions Architect with expertise in modern software design patterns.
          Based on the PRD, design a complete technical architecture and file structure.

          Return your response as a JSON object with this structure:
          \x7b
            \"tech_stack\": \x7b
              \"frontend\": [\"technology\", \"framework\"],
              \"backend\": [\"technology\", \"framework\"],
              \"database\": \"database choice\",
              \"infrastructure\": [\"services\"]
            \x7d,
            \"architecture_pattern\": \"description (e.g., microservices, monolith, JAMstack)\",
            \"file_structure\": \x7b
              \"root/\": \x7b
                \"src/\": \x7b
                  \"components/\": [\"file1.jsx\", \"file2.jsx\"],
                  \"services/\": [\"api.js\"],
                  \"utils/\": [\"helper.js\"]
                \x7d,
                \"public/\": [\"index.html\"],
                \"tests/\": [\"test1.spec.js\"]
              \x7d
            \x7d,
            \"key_modules\": [
              \x7b
                \"name\": \"Authentication\",
                \"files\": [\"auth.js\", \"login.jsx\"],
                \"dependencies\": [\"jwt\", \"bcrypt\"]
              \x7d
            ],
            \"api_endpoints\": [
              \x7b
                \"method\": \"POST\",
                \"path\": \"/api/users\",
                \"description\": \"Create new user\"
              \x7d
            ]
          \x7d

          Be practical and choose technologies appropriate for the project scale."

/-- The fixed system prompt of `agent_lead_developer`. -/
def ldSystemPrompt : String := "You are a Lead Developer capable of writing production-quality code.
          Based on the architecture plan and brand assets, generate the core source code files.

          Return your response as a JSON object where keys are file paths and values are code content:
          \x7b
            \"src/App.jsx\": \"import React...\",
            \"src/components/Header.jsx\": \"const Header = () => \x7b...\x7d\",
            \"src/styles/theme.js\": \"export const theme = \x7b...\x7d\",
            \"backend/server.js\": \"const express = require('express')...\",
            \"README.md\": \"# Project Name\\n\\n## Setup...\"
          \x7d

          Generate at least 5-8 key files including:
          - Main application entry point
          - At least 2 reusable components
          - Styling/theme file (using brand colors)
          - API/backend setup
          - README with setup instructions
          - Configuration files

          Code must be:
          - Production-ready with error handling
          - Well-commented
          - Follow best practices
          - Use the brand colors from brand_assets"

/-- The fixed system prompt of `agent_growth_hacker`. -/
def ghSystemPrompt : String := "You are a Growth Hacker with expertise in viral marketing and user acquisition.
          Based on the complete project (PRD, brand, and code), create a comprehensive Go-To-Market strategy.

          Include:
          1. Target Audience Segmentation
          2. Unique Value Proposition (UVP)
          3. Launch Strategy (phases)
          4. Marketing Channels (ranked by priority)
            - Content Marketing
            - Social Media Strategy
            - Paid Advertising
            - SEO Strategy
            - Community Building
          5. Growth Metrics & Goals
          6. Budget Allocation (percentages)
          7. First 90 Days Action Plan
          8. Viral Loop Mechanics
          9. Retention Strategies
          10. Sample Social Media Posts (5 examples)

          Be specific with tactics, timelines, and expected outcomes."

/-- The fixed system prompt of `agent_onboarding_specialist`. -/
def obSystemPrompt : String := "You are an Onboarding Specialist with expertise in technical documentation and developer experience.
Based on the generated source code and architecture, create a comprehensive INSTALL_GUIDE.md that explains how to set up and run the generated project.

The guide must be specific to the actual architecture and tech stack chosen by the Solutions Architect. Include:

1. **Prerequisites**
   - Required software versions (Node.js, Python, Docker, etc.)
   - System requirements
   - Required accounts/API keys

2. **Installation Steps**
   - Step-by-step setup instructions
   - Package/dependency installation commands
   - Configuration file setup
   - Environment variable configuration

3. **Project Structure Overview**
   - Brief explanation of key directories
   - Important files and their purposes

4. **Running the Project**
   - Development server startup commands
   - Production build instructions
   - Database setup/migration commands (if applicable)
   - How to verify the installation worked

5. **Common Issues & Troubleshooting**
   - Typical setup problems and solutions
   - Debugging tips

6. **Next Steps**
   - Links to relevant documentation
   - How to start developing

Be extremely specific with commands, file paths, and configuration. Use the actual tech stack from the architecture_map.
Do NOT include instructions for running the Genesis Pipeline itself - only for the GENERATED project."

/-- The generation call issued by `agent_product_owner` on a state. -/
def poCallOf (user_idea : String) : LLMCall :=
  { system := poSystemPrompt
    human := "User Idea: " ++ user_idea
    jsonMode := false }

/-- The generation call issued by `agent_creative_director` on a state
(`HumanMessage` embeds the idea and the first 500 characters of the PRD). -/
def cdCallOf (user_idea prd_content : String) : LLMCall :=
  { system := cdSystemPrompt
    human := "User Idea: " ++ user_idea ++ "\n\nPRD Summary: " ++ prd_content.take 500 ++ "..."
    jsonMode := true }

/-- The generation call issued by `agent_solutions_architect` on a state
(`HumanMessage` embeds the idea and the first 800 characters of the PRD). -/
def saCallOf (user_idea prd_content : String) : LLMCall :=
  { system := saSystemPrompt
    human := "User Idea: " ++ user_idea ++ "\n\nPRD: " ++ prd_content.take 800 ++ "..."
    jsonMode := true }

/-- The generation call issued by `agent_lead_developer` on a state (context built
from the serialized architecture map and brand assets). -/
def ldCallOf (user_idea : String) (architecture_map brand_assets : JValue) : LLMCall :=
  { system := ldSystemPrompt
    human := "User Idea: " ++ user_idea
      ++ "\n\n          Architecture:\n          " ++ jsonDumps architecture_map
      ++ "\n\n          Brand Assets:\n          " ++ jsonDumps brand_assets
    jsonMode := true }

/-- The generation call issued by `agent_growth_hacker`, given the values already
read from the state (brand name, tagline, number of generated files). -/
def ghCallOf (user_idea prd_content : String) (brand_name tagline : JValue)
    (fileCount : Nat) : LLMCall :=
  { system := ghSystemPrompt
    human := "User Idea: " ++ user_idea
      ++ "\n\n        Product Overview:\n        " ++ prd_content.take 500
      ++ "...\n\n        Brand Identity:\n        Brand Name: " ++ pyStr brand_name
      ++ "\n        Tagline: " ++ pyStr tagline
      ++ "\n\n        Project Files Generated: " ++ toString fileCount ++ " files"
    jsonMode := false }

/-- The generation call issued by `agent_onboarding_specialist`, given the values
already read from the state. -/
def obCallOf (user_idea : String) (architecture_map tech_stack : JValue)
    (source_files : List String) (fileCount : Nat) : LLMCall :=
  { system := obSystemPrompt
    human := "User Idea: " ++ user_idea
      ++ "\n\nArchitecture & Tech Stack:\n" ++ jsonDumps tech_stack
      ++ "\n\nFull Architecture Map:\n" ++ jsonDumps architecture_map
      ++ "\n\nGenerated Source Files (" ++ toString fileCount ++ " total):\n"
      ++ String.intercalate "\n" ((source_files.take 20).map (fun f => "- " ++ f))
      ++ "\n" ++ (if source_files.length > 20 then "... (and more)" else "")
      ++ "\n\nKey Files to Note:\n- Look for package.json, requirements.txt, Dockerfile, or similar dependency files\n- Check for README files or configuration examples\n- Identify entry points (main.js, app.py, index.jsx, etc.)"
    jsonMode := false }

/-! ## The six agent units

Each is the translation of one `async def agent_*` of `src/src/nodes.py`.  The
backend (`ChatOpenAI.ainvoke`) is the opaque parameter `llm`; `json.loads` is the
opaque parameter `jl`.  The `try/except` wrapper of each unit logs and re-raises,
so a raised error propagates unchanged (`Except.error`); logging and timing are
diagnostic side effects with no influence on state or control flow and are not
modelled.  -/

/-- AGENT 1 (`agent_product_owner`): writes `prd_content`. -/
def agent_product_owner (llm : LLMCall → CallResult) (s : GenesisState) :
    Except String AgentUpdate :=
  match llm (poCallOf s.user_idea) with
  | CallResult.error e => Except.error e
  | CallResult.ok content _tokens id =>
    Except.ok { prd_content := some content
                messages := s.messages ++ [⟨content, id⟩] }

/-- AGENT 2 (`agent_creative_director`): requests a JSON response, parses it with
`json.loads`, writes `brand_assets`. -/
def agent_creative_director (llm : LLMCall → CallResult)
    (jl : String → Except String JValue) (s : GenesisState) :
    Except String AgentUpdate :=
  match llm (cdCallOf s.user_idea s.prd_content) with
  | CallResult.error e => Except.error e
  | CallResult.ok content _tokens id =>
    match jl content with
    | Except.error e => Except.error e
    | Except.ok v =>
      Except.ok { brand_assets := some v
                  messages := s.messages ++ [⟨content, id⟩] }

/-- AGENT 3 (`agent_solutions_architect`): requests a JSON response, parses it,
writes `architecture_map`. -/
def agent_solutions_architect (llm : LLMCall → CallResult)
    (jl : String → Except String JValue) (s : GenesisState) :
    Except String AgentUpdate :=
  match llm (saCallOf s.user_idea s.prd_content) with
  | CallResult.error e => Except.error e
  | CallResult.ok content _tokens id =>
    match jl content with
    | Except.error e => Except.error e
    | Except.ok v =>
      Except.ok { architecture_map := some v
                  messages := s.messages ++ [⟨content, id⟩] }

/-- AGENT 4 (`agent_lead_developer`, the synchronization point): requests a JSON
response, parses it, writes `source_code`. -/
def agent_lead_developer (llm : LLMCall → CallResult)
    (jl : String → Except String JValue) (s : GenesisState) :
    Except String AgentUpdate :=
  match llm (ldCallOf s.user_idea s.architecture_map s.brand_assets) with
  | CallResult.error e => Except.error e
  | CallResult.ok content _tokens id =>
    match jl content with
    | Except.error e => Except.error e
    | Except.ok v =>
      Except.ok { source_code := some v
                  messages := s.messages ++ [⟨content, id⟩] }

/-- AGENT 5 (`agent_growth_hacker`): reads `brand_assets` with `dict.get` and
`source_code` with `len` while building its context, then writes
`marketing_plan`. -/
def agent_growth_hacker (llm : LLMCall → CallResult) (s : GenesisState) :
    Except String AgentUpdate :=
  match pyGet s.brand_assets "brand_name" (JValue.str "N/A") with
  | Except.error e => Except.error e
  | Except.ok brand_name =>
    match pyGet s.brand_assets "tagline" (JValue.str "N/A") with
    | Except.error e => Except.error e
    | Except.ok tagline =>
      match pyLen s.source_code with
      | Except.error e => Except.error e
      | Except.ok fileCount =>
        match llm (ghCallOf s.user_idea s.prd_content brand_name tagline fileCount) with
        | CallResult.error e => Except.error e
        | CallResult.ok content _tokens id =>
          Except.ok { marketing_plan := some content
                      messages := s.messages ++ [⟨content, id⟩] }

/-- AGENT 6 (`agent_onboarding_specialist`, defined in `src/src/nodes.py` but not
added to the graph of `create_genesis_graph`): writes `install_guide`. -/
def agent_onboarding_specialist (llm : LLMCall → CallResult) (s : GenesisState) :
    Except String AgentUpdate :=
  match pyKeys s.source_code with
  | Except.error e => Except.error e
  | Except.ok source_files =>
    match pyGet s.architecture_map "tech_stack" (JValue.obj []) with
    | Except.error e => Except.error e
    | Except.ok tech_stack =>
      match pyLen s.source_code with
      | Except.error e => Except.error e
      | Except.ok fileCount =>
        match llm (obCallOf s.user_idea s.architecture_map tech_stack source_files fileCount) with
        | CallResult.error e => Except.error e
        | CallResult.ok content _tokens id =>
          Except.ok { install_guide := some content
                      messages := s.messages ++ [⟨content, id⟩] }

/-! ## The execution graph (`src/src/graph.py`, `create_genesis_graph`) -/

/-- The five nodes added to the `StateGraph` by `create_genesis_graph`
(`agent_onboarding_specialist` is not among them). -/
inductive GNode where
  | product_owner
  | creative_director
  | solutions_architect
  | lead_developer
  | growth_hacker
deriving DecidableEq

/-- The `add_edge` calls of `create_genesis_graph`, in source order.  The entry
point is `product_owner`; the edge `growth_hacker → END` is implicit in the
node having no successor. -/
def nodeEdges : List (GNode × GNode) :=
  [(GNode.product_owner, GNode.creative_director),
   (GNode.product_owner, GNode.solutions_architect),
   (GNode.creative_director, GNode.lead_developer),
   (GNode.solutions_architect, GNode.lead_developer),
   (GNode.lead_developer, GNode.growth_hacker)]

/-- The direct predecessors of a node, derived from the edge list. -/
def nodePreds (n : GNode) : List GNode :=
  (nodeEdges.filter (fun e => e.2 = n)).map Prod.fst

/-- One directed edge of the graph. -/
def nodeEdge (a b : GNode) : Prop := (a, b) ∈ nodeEdges

/-- `b` is a (strict) transitive successor of `a` in the graph. -/
def NodeReach (a b : GNode) : Prop := Relation.TransGen nodeEdge a b

/-- Dispatch a graph node to its agent function. -/
def runNode (llm : LLMCall → CallResult) (jl : String → Except String JValue) :
    GNode → GenesisState → Except String AgentUpdate
  | GNode.product_owner, s => agent_product_owner llm s
  | GNode.creative_director, s => agent_creative_director llm jl s
  | GNode.solutions_architect, s => agent_solutions_architect llm jl s
  | GNode.lead_developer, s => agent_lead_developer llm jl s
  | GNode.growth_hacker, s => agent_growth_hacker llm s

/-- A configuration of a run: the shared state, the nodes that returned
successfully (in completion order), and the nodes that raised. -/
structure ExecConfig where
  st : GenesisState
  done : List GNode
  failed : List GNode

/-- The initial configuration over an initial shared state. -/
def initConfig (s : GenesisState) : ExecConfig := ⟨s, [], []⟩

/-- A node is eligible to run: not yet run, and every predecessor completed
successfully.  This is LangGraph's scheduling condition: a node whose incoming
edges all delivered is added to the next superstep. -/
def fireable (c : ExecConfig) (n : GNode) : Prop :=
  n ∉ c.done ∧ n ∉ c.failed ∧ ∀ m ∈ nodePreds n, m ∈ c.done

/-- Small-step semantics of the compiled graph: an eligible node is invoked on
the current state; on success its returned dict is merged, on a raise the state
is left as-is and the node is recorded as failed.  A node concurrently in
flight with a failed sibling may still step (there is no cross-branch
cancellation), but no successor of a failed node ever becomes eligible, since a
failed node never enters `done`. -/
inductive ExecStep (llm : LLMCall → CallResult) (jl : String → Except String JValue) :
    ExecConfig → GNode → ExecConfig → Prop
  | ok {c : ExecConfig} {n : GNode} {u : AgentUpdate} :
      n ∉ c.done → n ∉ c.failed → (∀ m ∈ nodePreds n, m ∈ c.done) →
      runNode llm jl n c.st = Except.ok u →
      ExecStep llm jl c n ⟨applyUpdate c.st u, c.done ++ [n], c.failed⟩
  | err {c : ExecConfig} {n : GNode} {e : String} :
      n ∉ c.done → n ∉ c.failed → (∀ m ∈ nodePreds n, m ∈ c.done) →
      runNode llm jl n c.st = Except.error e →
      ExecStep llm jl c n ⟨c.st, c.done, c.failed ++ [n]⟩

/-- Reachability in the step relation. -/
def Reach (llm : LLMCall → CallResult) (jl : String → Except String JValue)
    (c c' : ExecConfig) : Prop :=
  Relation.ReflTransGen (fun a b => ∃ n, ExecStep llm jl a n b) c c'

/-- Deterministic end-to-end run of the compiled graph (`genesis_pipeline.ainvoke`):
product owner, then the fan-out superstep in which creative director and
solutions architect both read the same snapshot, then the join node, then the
growth hacker.  Any raise aborts the run with that error. -/
def runPipeline (llm : LLMCall → CallResult) (jl : String → Except String JValue)
    (s0 : GenesisState) : Except String GenesisState :=
  match agent_product_owner llm s0 with
  | Except.error e => Except.error e
  | Except.ok u1 =>
    let s1 := applyUpdate s0 u1
    match agent_creative_director llm jl s1 with
    | Except.error e => Except.error e
    | Except.ok u2 =>
      match agent_solutions_architect llm jl s1 with
      | Except.error e => Except.error e
      | Except.ok u3 =>
        let s2 := applyUpdate (applyUpdate s1 u2) u3
        match agent_lead_developer llm jl s2 with
        | Except.error e => Except.error e
        | Except.ok u4 =>
          let s3 := applyUpdate s2 u4
          match agent_growth_hacker llm s3 with
          | Except.error e => Except.error e
          | Except.ok u5 => Except.ok (applyUpdate s3 u5)

/-! ## The exporter (`save_output` of `src/main.py`) -/

/-- A file system: path to contents. -/
def FileSys := String → Option String

/-- Writing one file (overwrite). -/
def setFile (fs : FileSys) (p c : String) : FileSys :=
  fun q => if q = p then some c else fs q

/-- Apply a list of writes in order. -/
def applyWrites (fs : FileSys) (ws : List (String × String)) : FileSys :=
  ws.foldl (fun f w => setFile f w.1 w.2) fs

/-- The observable outcome of `save_output`: the file writes performed (in
order, including those before a raise), the artifact dictionary built
(artifact type ↦ path, in insertion order), and the raised error, if any. -/
structure SaveResult where
  writes : List (String × String)
  artifacts : List (String × String)
  failure : Option String

/-- The writes of the `for filename, code in final_state["source_code"].items()`
loop: each value is written under `os.path.join(code_dir, filename)`; a
non-string value raises a `TypeError` from `f.write` and stops the loop. -/
def writeSourceFiles (codeDir : String) :
    List (String × JValue) → List (String × String) × Option String
  | [] => ([], none)
  | (f, v) :: rest =>
    match v with
    | JValue.str code =>
      let r := writeSourceFiles codeDir rest
      ((pyJoin codeDir f, code) :: r.1, r.2)
    | _ => ([], some "TypeError: write() argument must be str")

/-- `save_output` of `src/main.py`: writes `PRD.md`, `brand_guide.json`,
`architecture.json`, every generated source file under `source_code/`,
`marketing_plan.md`, and `INSTALL_GUIDE.md` only when the `install_guide` key
is present; returns the artifact dictionary.  A `source_code` value that is not
a dict raises at `.items()`; a non-string file content raises inside the loop;
either error propagates to the caller after the earlier writes happened. -/
def save_output (st : GenesisState) (dir : String) : SaveResult :=
  let base : List (String × String) :=
    [(dir ++ "/PRD.md", st.prd_content),
     (dir ++ "/brand_guide.json", jsonDumps st.brand_assets),
     (dir ++ "/architecture.json", jsonDumps st.architecture_map)]
  let arts : List (String × String) :=
    [("prd", dir ++ "/PRD.md"),
     ("brand_assets", dir ++ "/brand_guide.json"),
     ("architecture", dir ++ "/architecture.json")]
  match st.source_code with
  | JValue.obj items =>
    let code := writeSourceFiles (dir ++ "/source_code") items
    match code.2 with
    | some e => ⟨base ++ code.1, arts, some e⟩
    | none =>
      let writes := base ++ code.1 ++ [(dir ++ "/marketing_plan.md", st.marketing_plan)]
      let arts := arts ++
        [("source_code", dir ++ "/source_code"),
         ("marketing_plan", dir ++ "/marketing_plan.md")]
      match st.install_guide with
      | some g =>
        ⟨writes ++ [(dir ++ "/INSTALL_GUIDE.md", g)],
         arts ++ [("install_guide", dir ++ "/INSTALL_GUIDE.md")], none⟩
      | none => ⟨writes, arts, none⟩
  | _ => ⟨base, arts, some "AttributeError: items"⟩

/-! ## The run driver (`run_genesis_pipeline` of `src/main.py`) -/

/-- The status enum of the record store (`src/src/database.py`). -/
inductive ProjectStatus where
  | pending
  | running
  | completed
  | failed
deriving DecidableEq

/-- The record store, an external collaborator: each operation may raise. -/
structure DbOps where
  createProject : String → Except String Nat
  getProject : Nat → Except String (Option Nat)
  updateStatus : Nat → ProjectStatus → Except String Unit
  saveArtifacts : Nat → List (String × String) → Except String Unit

/-- The observable record-store interactions of one driver run.  A
`statusUpdated` event carries whether the update call succeeded. -/
inductive DbEvent where
  | created : Nat → DbEvent
  | statusUpdated : Nat → ProjectStatus → Bool → DbEvent
  | artifactsSaved : Nat → List (String × String) → DbEvent
deriving DecidableEq

/-- Python truthiness of the driver's `project_id` local (`if project_id:`). -/
def pyTruthy : Option Nat → Bool
  | none => false
  | some n => n != 0

/-- The `except` clause of `run_genesis_pipeline`: when `project_id` is truthy,
attempt to mark the run failed, swallowing any error of that attempt
(`except: pass`), then re-raise the original error. -/
def driverOnFailure (ops : DbOps) (e : String) (pid : Option Nat) (fs : FileSys)
    (evs : List DbEvent) : Except String (GenesisState × Nat) × FileSys × List DbEvent :=
  match pid with
  | some p =>
    if p != 0 then
      match ops.updateStatus p ProjectStatus.failed with
      | Except.ok _ => (Except.error e, fs, evs ++ [DbEvent.statusUpdated p ProjectStatus.failed true])
      | Except.error _ => (Except.error e, fs, evs ++ [DbEvent.statusUpdated p ProjectStatus.failed false])
    else (Except.error e, fs, evs)
  | none => (Except.error e, fs, evs)

/-- The initial state the driver hands to the graph: fresh state with the start
timestamp and project id recorded in the metadata. -/
def driverInitState (idea startT : String) (pid : Nat) : GenesisState :=
  let s := create_initial_state idea
  { s with execution_metadata :=
      { s.execution_metadata with start_time := some startT, project_id := some pid } }

/-- The body of the driver's `try` block from the point where `project_id` is
known: mark running, build the initial state (start timestamp and project id
recorded in the metadata), invoke the graph, export, persist artifacts, mark
completed.  Every raise is routed through `driverOnFailure`. -/
def driverBody (llm : LLMCall → CallResult) (jl : String → Except String JValue)
    (ops : DbOps) (idea : String) (pid : Nat) (startT endT : String) (fs : FileSys)
    (evs : List DbEvent) : Except String (GenesisState × Nat) × FileSys × List DbEvent :=
  match ops.updateStatus pid ProjectStatus.running with
  | Except.error e =>
    driverOnFailure ops e (some pid) fs (evs ++ [DbEvent.statusUpdated pid ProjectStatus.running false])
  | Except.ok _ =>
    let evs := evs ++ [DbEvent.statusUpdated pid ProjectStatus.running true]
    match runPipeline llm jl (driverInitState idea startT pid) with
    | Except.error e => driverOnFailure ops e (some pid) fs evs
    | Except.ok fin =>
      let fin : GenesisState :=
        { fin with execution_metadata := { fin.execution_metadata with end_time := some endT } }
      let dir := "output/project_" ++ toString pid
      let sr := save_output fin dir
      let fs := applyWrites fs sr.writes
      match sr.failure with
      | some e => driverOnFailure ops e (some pid) fs evs
      | none =>
        match ops.saveArtifacts pid sr.artifacts with
        | Except.error e => driverOnFailure ops e (some pid) fs evs
        | Except.ok _ =>
          let evs := evs ++ [DbEvent.artifactsSaved pid sr.artifacts]
          match ops.updateStatus pid ProjectStatus.completed with
          | Except.error e =>
            driverOnFailure ops e (some pid) fs
              (evs ++ [DbEvent.statusUpdated pid ProjectStatus.completed false])
          | Except.ok _ =>
            (Except.ok (fin, pid), fs, evs ++ [DbEvent.statusUpdated pid ProjectStatus.completed true])

/-- `run_genesis_pipeline` of `src/main.py`.  With no `project_id` a record is
created first (a raise there leaves `project_id` as `None`, so the `except`
clause attempts no status update); with an existing id the record is fetched
and reset to pending. -/
def run_genesis_pipeline (llm : LLMCall → CallResult) (jl : String → Except String JValue)
    (ops : DbOps) (idea : String) (pid0 : Option Nat) (startT endT : String)
    (fs : FileSys) : Except String (GenesisState × Nat) × FileSys × List DbEvent :=
  match pid0 with
  | none =>
    match ops.createProject idea with
    | Except.error e => driverOnFailure ops e none fs []
    | Except.ok pid => driverBody llm jl ops idea pid startT endT fs [DbEvent.created pid]
  | some pid =>
    match ops.getProject pid with
    | Except.error e => driverOnFailure ops e (some pid) fs []
    | Except.ok none =>
      driverOnFailure ops ("Project with ID " ++ toString pid ++ " not found") (some pid) fs []
    | Except.ok (some _) =>
      match ops.updateStatus pid ProjectStatus.pending with
      | Except.error e =>
        driverOnFailure ops e (some pid) fs [DbEvent.statusUpdated pid ProjectStatus.pending false]
      | Except.ok _ =>
        driverBody llm jl ops idea pid startT endT fs [DbEvent.statusUpdated pid ProjectStatus.pending true]

/-! ## Timing model of the executor

LangGraph's executor runs every node of a superstep concurrently and a node
starts as soon as all its predecessors have returned.  With an injected
duration per node, `est` is the earliest start time of a node under that
schedule (the longest-path recurrence over the dependency graph). -/

/-- Earliest start time, with enough fuel for the five-node graph. -/
def estAux (dur : GNode → Nat) : Nat → GNode → Nat
  | 0, _ => 0
  | fuel + 1, n =>
    (nodePreds n).foldr (fun p acc => max acc (estAux dur fuel p + dur p)) 0

/-- Earliest start time of a node when each node `n` suspends for `dur n`. -/
def est (dur : GNode → Nat) (n : GNode) : Nat := estAux dur 5 n

/-- Structural invariant of reachable configurations: every predecessor of a
completed node completed, no node both completed and failed, completions are
unique. -/
def StructInv (c : ExecConfig) : Prop :=
  (∀ n ∈ c.done, ∀ m ∈ nodePreds n, m ∈ c.done) ∧
  (∀ n ∈ c.done, n ∉ c.failed) ∧
  c.done.Nodup

/-- Determinacy invariant: along any run from an initial configuration, the
PRD, brand assets and architecture map of a configuration are exactly the
(parsed) backend responses to the calls the codebase constructs, and the two
fan-out branches complete only after the product owner. -/
def DetInv (llm : LLMCall → CallResult) (jl : String → Except String JValue)
    (idea : String) (c : ExecConfig) : Prop :=
  c.st.user_idea = idea ∧
  (GNode.product_owner ∈ c.done →
    ∃ ct tk i, llm (poCallOf idea) = CallResult.ok ct tk i ∧ c.st.prd_content = ct) ∧
  (GNode.creative_director ∈ c.done →
    GNode.product_owner ∈ c.done ∧
    ∃ ct tk i v, llm (cdCallOf idea c.st.prd_content) = CallResult.ok ct tk i ∧
      jl ct = Except.ok v ∧ c.st.brand_assets = v) ∧
  (GNode.solutions_architect ∈ c.done →
    GNode.product_owner ∈ c.done ∧
    ∃ ct tk i v, llm (saCallOf idea c.st.prd_content) = CallResult.ok ct tk i ∧
      jl ct = Except.ok v ∧ c.st.architecture_map = v)

/-! ## Characterization of repeated writes (for export idempotence) -/

/-- The last content written to path `p` by the write list, if any. -/
def lastWrite (ws : List (String × String)) (p : String) : Option String :=
  ws.foldl (fun acc w => if w.1 = p then some w.2 else acc) none

/-! ## Concrete fixtures: a canned backend and a canned parse function -/

/-- One canned backend response per agent unit. -/
structure CannedSet where
  prd : String
  brand : String
  arch : String
  code : String
  marketing : String
  install : String

/-- A backend that answers every unit's call with its canned response,
dispatching on the unit's fixed system prompt (the six system prompts are
pairwise distinct).  Response ids 1–6 are distinct, as the uuids of real
responses are. -/
def cannedLLM (r : CannedSet) (c : LLMCall) : CallResult :=
  if c.system = poSystemPrompt then CallResult.ok r.prd 0 1
  else if c.system = cdSystemPrompt then CallResult.ok r.brand 0 2
  else if c.system = saSystemPrompt then CallResult.ok r.arch 0 3
  else if c.system = ldSystemPrompt then CallResult.ok r.code 0 4
  else if c.system = ghSystemPrompt then CallResult.ok r.marketing 0 5
  else if c.system = obSystemPrompt then CallResult.ok r.install 0 6
  else CallResult.error "no canned response"

/-- A parse function recognizing the canned structured responses. -/
def jlFixture : String → Except String JValue :=
  fun s =>
    if s = "\x7b\x7d" then Except.ok (JValue.obj [])
    else if s = "BRANDJ" then
      Except.ok (JValue.obj [("brand_name", JValue.str "Acme"), ("tagline", JValue.str "Go fast")])
    else if s = "ARCHJ" then Except.ok (JValue.obj [("tech_stack", JValue.str "node")])
    else if s = "CODEJ" then Except.ok (JValue.obj [("main.py", JValue.str "print(1)")])
    else Except.error "json.decoder.JSONDecodeError"

/-- Canned responses used in the positive fixtures. -/
def cannedMain : CannedSet :=
  ⟨"PRD TEXT", "BRANDJ", "ARCHJ", "CODEJ", "MKT PLAN", "INSTALL GUIDE"⟩

/-- Canned responses whose brand response parses to the empty mapping. -/
def cannedEmptyBrand : CannedSet :=
  ⟨"PRD TEXT", "\x7b\x7d", "ARCHJ", "CODEJ", "MKT PLAN", "INSTALL GUIDE"⟩

/-- A backend whose creative-director call times out, all else canned. -/
def llmCdFails (c : LLMCall) : CallResult :=
  if c.system = cdSystemPrompt then CallResult.error "ReadTimeout"
  else cannedLLM cannedMain c

/-- A backend where every call raises (timeout). -/
def llmAllFail : LLMCall → CallResult := fun _ => CallResult.error "APITimeoutError"

/-- Canned responses whose brand response does not parse. -/
def cannedBadBrand : CannedSet :=
  ⟨"PRD TEXT", "NOTJSON", "ARCHJ", "CODEJ", "MKT PLAN", "INSTALL GUIDE"⟩

/-! ## Concrete run fixtures -/

/-- The parsed canned brand mapping. -/
def brandVal : JValue :=
  JValue.obj [("brand_name", JValue.str "Acme"), ("tagline", JValue.str "Go fast")]

/-- The parsed canned architecture mapping. -/
def archVal : JValue := JValue.obj [("tech_stack", JValue.str "node")]

/-- The parsed canned source mapping. -/
def codeVal : JValue := JValue.obj [("main.py", JValue.str "print(1)")]

/-- Fresh metadata, as produced by `create_initial_state`. -/
def metaInit : ExecMeta :=
  { start_time := none, end_time := none, total_tokens := 0, agent_timings := [],
    project_id := none }

/-- The initial configuration of the concrete runs. -/
def demoC0 : ExecConfig := initConfig (create_initial_state "Demo")

/-- Shared state after the product owner returned the canned PRD. -/
def demoStA : GenesisState :=
  { user_idea := "Demo", prd_content := "PRD TEXT", brand_assets := JValue.obj [],
    architecture_map := JValue.obj [], source_code := JValue.obj [], marketing_plan := "",
    install_guide := none, messages := [⟨"PRD TEXT", 1⟩], execution_metadata := metaInit }

def demoC1 : ExecConfig := ⟨demoStA, [GNode.product_owner], []⟩

def demoStB : GenesisState :=
  { demoStA with
    brand_assets := brandVal
    messages := [⟨"PRD TEXT", 1⟩, ⟨"BRANDJ", 2⟩] }

def demoC2 : ExecConfig := ⟨demoStB, [GNode.product_owner, GNode.creative_director], []⟩

def demoStC : GenesisState :=
  { demoStB with
    architecture_map := archVal
    messages := [⟨"PRD TEXT", 1⟩, ⟨"BRANDJ", 2⟩, ⟨"ARCHJ", 3⟩] }

def demoC3 : ExecConfig :=
  ⟨demoStC, [GNode.product_owner, GNode.creative_director, GNode.solutions_architect], []⟩

def demoStD : GenesisState :=
  { demoStC with
    source_code := codeVal
    messages := [⟨"PRD TEXT", 1⟩, ⟨"BRANDJ", 2⟩, ⟨"ARCHJ", 3⟩, ⟨"CODEJ", 4⟩] }

def demoC4 : ExecConfig :=
  ⟨demoStD, [GNode.product_owner, GNode.creative_director, GNode.solutions_architect,
    GNode.lead_developer], []⟩

/-- State after the creative director's response parsed to the empty mapping. -/
def cexStB : GenesisState :=
  { demoStA with
    messages := [⟨"PRD TEXT", 1⟩, ⟨"\x7b\x7d", 2⟩] }

def cexC2 : ExecConfig := ⟨cexStB, [GNode.product_owner, GNode.creative_director], []⟩

def cexStC : GenesisState :=
  { cexStB with
    architecture_map := archVal
    messages := [⟨"PRD TEXT", 1⟩, ⟨"\x7b\x7d", 2⟩, ⟨"ARCHJ", 3⟩] }

def cexC3 : ExecConfig :=
  ⟨cexStC, [GNode.product_owner, GNode.creative_director, GNode.solutions_architect], []⟩

def cexStD : GenesisState :=
  { cexStC with
    source_code := codeVal
    messages := [⟨"PRD TEXT", 1⟩, ⟨"\x7b\x7d", 2⟩, ⟨"ARCHJ", 3⟩, ⟨"CODEJ", 4⟩] }

def cexC4 : ExecConfig :=
  ⟨cexStD, [GNode.product_owner, GNode.creative_director, GNode.solutions_architect,
    GNode.lead_developer], []⟩

/-- Configuration after the Brand Designer raised in the timing-out run. -/
def cdfC2 : ExecConfig := ⟨demoStA, [GNode.product_owner], [GNode.creative_director]⟩

/-- The concrete final state of the canned run (five populated fields, no
install guide). -/
def demoFinal : GenesisState :=
  { user_idea := "Demo", prd_content := "PRD TEXT", brand_assets := brandVal,
    architecture_map := archVal, source_code := codeVal, marketing_plan := "MKT PLAN",
    install_guide := none,
    messages := [⟨"PRD TEXT", 1⟩, ⟨"BRANDJ", 2⟩, ⟨"ARCHJ", 3⟩, ⟨"CODEJ", 4⟩, ⟨"MKT PLAN", 5⟩],
    execution_metadata := metaInit }

/-- The record store fixture: creation yields id 1, status updates succeed
except that marking FAILED itself raises (exercising the swallowed secondary
failure). -/
def opsFixture : DbOps :=
  { createProject := fun _ => Except.ok 1
    getProject := fun p => Except.ok (some p)
    updateStatus := fun _ st =>
      if st = ProjectStatus.failed then Except.error "OperationalError" else Except.ok ()
    saveArtifacts := fun _ _ => Except.ok () }

/-! ## Basic lemmas about the state merge -/

@[simp]
lemma applyUpdate_user_idea (s : GenesisState) (u : AgentUpdate) :
    (applyUpdate s u).user_idea = s.user_idea := rfl

@[simp]
lemma applyUpdate_prd (s : GenesisState) (u : AgentUpdate) :
    (applyUpdate s u).prd_content = u.prd_content.getD s.prd_content := rfl

@[simp]
lemma applyUpdate_brand (s : GenesisState) (u : AgentUpdate) :
    (applyUpdate s u).brand_assets = u.brand_assets.getD s.brand_assets := rfl

@[simp]
lemma applyUpdate_arch (s : GenesisState) (u : AgentUpdate) :
    (applyUpdate s u).architecture_map = u.architecture_map.getD s.architecture_map := rfl

@[simp]
lemma applyUpdate_source (s : GenesisState) (u : AgentUpdate) :
    (applyUpdate s u).source_code = u.source_code.getD s.source_code := rfl

@[simp]
lemma applyUpdate_marketing (s : GenesisState) (u : AgentUpdate) :
    (applyUpdate s u).marketing_plan = u.marketing_plan.getD s.marketing_plan := rfl

@[simp]
lemma applyUpdate_meta (s : GenesisState) (u : AgentUpdate) :
    (applyUpdate s u).execution_metadata = s.execution_metadata := rfl

@[simp]
lemma applyUpdate_messages (s : GenesisState) (u : AgentUpdate) :
    (applyUpdate s u).messages = addMessages s.messages u.messages := rfl

lemma applyUpdate_install (s : GenesisState) (u : AgentUpdate) :
    (applyUpdate s u).install_guide =
      match u.install_guide with
      | some g => some g
      | none => s.install_guide := rfl

lemma upsertMessage_mem {l : List ChatMessage} {m : ChatMessage}
    (hN : (l.map ChatMessage.id).Nodup) (hm : m ∈ l) : upsertMessage l m = l := by
  have hany : l.any (fun x => x.id == m.id) = true :=
    List.any_eq_true.2 ⟨m, hm, by simp⟩
  have hinj := List.inj_on_of_nodup_map hN
  unfold upsertMessage
  rw [hany]
  simp only [if_true]
  have : ∀ x ∈ l, (if x.id == m.id then m else x) = x := by
    intro x hx
    by_cases hid : x.id = m.id
    · have hxm : x = m := hinj hx hm hid
      simp [hid, hxm]
    · simp [hid]
  calc l.map (fun x => if x.id == m.id then m else x) = l.map id := List.map_congr_left this
  _ = l := List.map_id l

lemma upsertMessage_fresh {l : List ChatMessage} {m : ChatMessage}
    (hm : m.id ∉ l.map ChatMessage.id) : upsertMessage l m = l ++ [m] := by
  have hany : l.any (fun x => x.id == m.id) = false := by
    rw [List.any_eq_false]
    intro x hx
    simp only [beq_iff_eq]
    intro hxid
    exact hm (hxid ▸ List.mem_map_of_mem ChatMessage.id hx)
  unfold upsertMessage
  rw [hany]
  simp

lemma addMessages_of_subset {l : List ChatMessage} (r : List ChatMessage)
    (hN : (l.map ChatMessage.id).Nodup) (hr : ∀ x ∈ r, x ∈ l) :
    addMessages l r = l := by
  induction r with
  | nil => rfl
  | cons m r ih =>
    have hml : m ∈ l := hr m (List.mem_cons_self m r)
    unfold addMessages
    rw [List.foldl_cons, upsertMessage_mem hN hml]
    exact ih (fun x hx => hr x (List.mem_cons_of_mem m hx))

/-- Merging `state.messages + [response]` into the channel appends the response
when its id is fresh: the `add_messages` reducer is append-only for fresh ids. -/
lemma addMessages_append_fresh {l : List ChatMessage} {m : ChatMessage}
    (hN : (l.map ChatMessage.id).Nodup) (hm : m.id ∉ l.map ChatMessage.id) :
    addMessages l (l ++ [m]) = l ++ [m] := by
  unfold addMessages
  rw [List.foldl_append]
  have hself : List.foldl upsertMessage l l = l := addMessages_of_subset l hN (fun x hx => hx)
  rw [hself]
  simpa using upsertMessage_fresh hm

/-! ## Inversion lemmas for successful agent returns -/

lemma po_ok_inv {llm : LLMCall → CallResult} {s : GenesisState} {u : AgentUpdate}
    (h : agent_product_owner llm s = Except.ok u) :
    ∃ ct tk i, llm (poCallOf s.user_idea) = CallResult.ok ct tk i ∧
      u = { prd_content := some ct, messages := s.messages ++ [⟨ct, i⟩] } := by
  cases hc : llm (poCallOf s.user_idea) with
  | error e => simp [agent_product_owner, hc] at h
  | ok ct tk i =>
    refine ⟨ct, tk, i, rfl, ?_⟩
    simp only [agent_product_owner, hc, Except.ok.injEq] at h
    exact h.symm

lemma cd_ok_inv {llm : LLMCall → CallResult} {jl : String → Except String JValue}
    {s : GenesisState} {u : AgentUpdate}
    (h : agent_creative_director llm jl s = Except.ok u) :
    ∃ ct tk i v, llm (cdCallOf s.user_idea s.prd_content) = CallResult.ok ct tk i ∧
      jl ct = Except.ok v ∧
      u = { brand_assets := some v, messages := s.messages ++ [⟨ct, i⟩] } := by
  cases hc : llm (cdCallOf s.user_idea s.prd_content) with
  | error e => simp [agent_creative_director, hc] at h
  | ok ct tk i =>
    cases hj : jl ct with
    | error e => simp [agent_creative_director, hc, hj] at h
    | ok v =>
      refine ⟨ct, tk, i, v, rfl, hj, ?_⟩
      simp only [agent_creative_director, hc, hj, Except.ok.injEq] at h
      exact h.symm

lemma sa_ok_inv {llm : LLMCall → CallResult} {jl : String → Except String JValue}
    {s : GenesisState} {u : AgentUpdate}
    (h : agent_solutions_architect llm jl s = Except.ok u) :
    ∃ ct tk i v, llm (saCallOf s.user_idea s.prd_content) = CallResult.ok ct tk i ∧
      jl ct = Except.ok v ∧
      u = { architecture_map := some v, messages := s.messages ++ [⟨ct, i⟩] } := by
  cases hc : llm (saCallOf s.user_idea s.prd_content) with
  | error e => simp [agent_solutions_architect, hc] at h
  | ok ct tk i =>
    cases hj : jl ct with
    | error e => simp [agent_solutions_architect, hc, hj] at h
    | ok v =>
      refine ⟨ct, tk, i, v, rfl, hj, ?_⟩
      simp only [agent_solutions_architect, hc, hj, Except.ok.injEq] at h
      exact h.symm

lemma ld_ok_inv {llm : LLMCall → CallResult} {jl : String → Except String JValue}
    {s : GenesisState} {u : AgentUpdate}
    (h : agent_lead_developer llm jl s = Except.ok u) :
    ∃ ct tk i v, llm (ldCallOf s.user_idea s.architecture_map s.brand_assets) = CallResult.ok ct tk i ∧
      jl ct = Except.ok v ∧
      u = { source_code := some v, messages := s.messages ++ [⟨ct, i⟩] } := by
  cases hc : llm (ldCallOf s.user_idea s.architecture_map s.brand_assets) with
  | error e => simp [agent_lead_developer, hc] at h
  | ok ct tk i =>
    cases hj : jl ct with
    | error e => simp [agent_lead_developer, hc, hj] at h
    | ok v =>
      refine ⟨ct, tk, i, v, rfl, hj, ?_⟩
      simp only [agent_lead_developer, hc, hj, Except.ok.injEq] at h
      exact h.symm

lemma gh_ok_inv {llm : LLMCall → CallResult} {s : GenesisState} {u : AgentUpdate}
    (h : agent_growth_hacker llm s = Except.ok u) :
    ∃ bn tg nf ct tk i,
      pyGet s.brand_assets "brand_name" (JValue.str "N/A") = Except.ok bn ∧
      pyGet s.brand_assets "tagline" (JValue.str "N/A") = Except.ok tg ∧
      pyLen s.source_code = Except.ok nf ∧
      llm (ghCallOf s.user_idea s.prd_content bn tg nf) = CallResult.ok ct tk i ∧
      u = { marketing_plan := some ct, messages := s.messages ++ [⟨ct, i⟩] } := by
  cases hb : pyGet s.brand_assets "brand_name" (JValue.str "N/A") with
  | error e => simp [agent_growth_hacker, hb] at h
  | ok bn =>
    cases ht : pyGet s.brand_assets "tagline" (JValue.str "N/A") with
    | error e => simp [agent_growth_hacker, hb, ht] at h
    | ok tg =>
      cases hn : pyLen s.source_code with
      | error e => simp [agent_growth_hacker, hb, ht, hn] at h
      | ok nf =>
        cases hc : llm (ghCallOf s.user_idea s.prd_content bn tg nf) with
        | error e => simp [agent_growth_hacker, hb, ht, hn, hc] at h
        | ok ct tk i =>
          refine ⟨bn, tg, nf, ct, tk, i, rfl, rfl, rfl, hc, ?_⟩
          simp only [agent_growth_hacker, hb, ht, hn, hc, Except.ok.injEq] at h
          exact h.symm

/-- A successful node writes exactly its owned field (and never `install_guide`),
and its `messages` entry is the old history plus one response whose id comes
from the backend. -/
lemma runNode_ok_fields {llm : LLMCall → CallResult} {jl : String → Except String JValue}
    {n : GNode} {s : GenesisState} {u : AgentUpdate}
    (h : runNode llm jl n s = Except.ok u) :
    (u.prd_content.isSome ↔ n = GNode.product_owner) ∧
    (u.brand_assets.isSome ↔ n = GNode.creative_director) ∧
    (u.architecture_map.isSome ↔ n = GNode.solutions_architect) ∧
    (u.source_code.isSome ↔ n = GNode.lead_developer) ∧
    (u.marketing_plan.isSome ↔ n = GNode.growth_hacker) ∧
    u.install_guide = none ∧
    ∃ ct tk i, (∃ call, llm call = CallResult.ok ct tk i) ∧
      u.messages = s.messages ++ [⟨ct, i⟩] := by
  cases n with
  | product_owner =>
    obtain ⟨ct, tk, i, hc, hu⟩ := po_ok_inv h
    subst hu
    exact ⟨by simp, by simp, by simp, by simp, by simp, rfl, ct, tk, i, ⟨_, hc⟩, rfl⟩
  | creative_director =>
    obtain ⟨ct, tk, i, v, hc, _, hu⟩ := cd_ok_inv h
    subst hu
    exact ⟨by simp, by simp, by simp, by simp, by simp, rfl, ct, tk, i, ⟨_, hc⟩, rfl⟩
  | solutions_architect =>
    obtain ⟨ct, tk, i, v, hc, _, hu⟩ := sa_ok_inv h
    subst hu
    exact ⟨by simp, by simp, by simp, by simp, by simp, rfl, ct, tk, i, ⟨_, hc⟩, rfl⟩
  | lead_developer =>
    obtain ⟨ct, tk, i, v, hc, _, hu⟩ := ld_ok_inv h
    subst hu
    exact ⟨by simp, by simp, by simp, by simp, by simp, rfl, ct, tk, i, ⟨_, hc⟩, rfl⟩
  | growth_hacker =>
    obtain ⟨bn, tg, nf, ct, tk, i, _, _, _, hc, hu⟩ := gh_ok_inv h
    subst hu
    exact ⟨by simp, by simp, by simp, by simp, by simp, rfl, ct, tk, i, ⟨_, hc⟩, rfl⟩

/-! ## Step-level invariants of the execution graph -/

/-- A step by node `n` changes only the field `n` owns; the input `user_idea`,
the metadata, and `install_guide` (owned by no graph node) never change. -/
lemma step_preserves {llm : LLMCall → CallResult} {jl : String → Except String JValue}
    {c : ExecConfig} {n : GNode} {c' : ExecConfig} (hs : ExecStep llm jl c n c') :
    c'.st.user_idea = c.st.user_idea ∧
    (n ≠ GNode.product_owner → c'.st.prd_content = c.st.prd_content) ∧
    (n ≠ GNode.creative_director → c'.st.brand_assets = c.st.brand_assets) ∧
    (n ≠ GNode.solutions_architect → c'.st.architecture_map = c.st.architecture_map) ∧
    (n ≠ GNode.lead_developer → c'.st.source_code = c.st.source_code) ∧
    (n ≠ GNode.growth_hacker → c'.st.marketing_plan = c.st.marketing_plan) ∧
    c'.st.install_guide = c.st.install_guide ∧
    c'.st.execution_metadata = c.st.execution_metadata := by
  cases hs with
  | err h1 h2 h3 h4 =>
    exact ⟨rfl, fun _ => rfl, fun _ => rfl, fun _ => rfl, fun _ => rfl, fun _ => rfl, rfl, rfl⟩
  | @ok u h1 h2 h3 h4 =>
    obtain ⟨hp, hb, ha, hsrc, hmk, hig, -⟩ := runNode_ok_fields h4
    refine ⟨rfl, ?_, ?_, ?_, ?_, ?_, ?_, rfl⟩
    · intro hne
      have : u.prd_content = none := Option.not_isSome_iff_eq_none.1 (fun h => hne (hp.1 h))
      simp [this]
    · intro hne
      have : u.brand_assets = none := Option.not_isSome_iff_eq_none.1 (fun h => hne (hb.1 h))
      simp [this]
    · intro hne
      have : u.architecture_map = none := Option.not_isSome_iff_eq_none.1 (fun h => hne (ha.1 h))
      simp [this]
    · intro hne
      have : u.source_code = none := Option.not_isSome_iff_eq_none.1 (fun h => hne (hsrc.1 h))
      simp [this]
    · intro hne
      have : u.marketing_plan = none := Option.not_isSome_iff_eq_none.1 (fun h => hne (hmk.1 h))
      simp [this]
    · rw [applyUpdate_install]
      simp [hig]

lemma step_done_mono {llm : LLMCall → CallResult} {jl : String → Except String JValue}
    {c : ExecConfig} {n : GNode} {c' : ExecConfig} (hs : ExecStep llm jl c n c') :
    c.done ⊆ c'.done := by
  cases hs with
  | ok h1 h2 h3 h4 => exact List.subset_append_left _ _
  | err h1 h2 h3 h4 => exact fun x hx => hx

lemma step_failed_mono {llm : LLMCall → CallResult} {jl : String → Except String JValue}
    {c : ExecConfig} {n : GNode} {c' : ExecConfig} (hs : ExecStep llm jl c n c') :
    c.failed ⊆ c'.failed := by
  cases hs with
  | ok h1 h2 h3 h4 => exact fun x hx => hx
  | err h1 h2 h3 h4 => exact List.subset_append_left _ _

lemma reach_failed_mono {llm : LLMCall → CallResult} {jl : String → Except String JValue}
    {c c' : ExecConfig} (h : Reach llm jl c c') : c.failed ⊆ c'.failed := by
  induction h with
  | refl => exact fun x hx => hx
  | tail hab hbc ih =>
    obtain ⟨n, hst⟩ := hbc
    exact fun x hx => step_failed_mono hst (ih hx)

lemma structInv_init (s : GenesisState) : StructInv (initConfig s) :=
  ⟨fun n hn => absurd hn (List.not_mem_nil n), fun n hn => absurd hn (List.not_mem_nil n),
   List.nodup_nil⟩

lemma structInv_step {llm : LLMCall → CallResult} {jl : String → Except String JValue}
    {c : ExecConfig} {n : GNode} {c' : ExecConfig}
    (hs : ExecStep llm jl c n c') (hI : StructInv c) : StructInv c' := by
  obtain ⟨hpred, hdisj, hnd⟩ := hI
  cases hs with
  | ok h1 h2 h3 h4 =>
    refine ⟨?_, ?_, ?_⟩
    · intro x hx m hm
      rcases List.mem_append.1 hx with hx' | hx'
      · exact List.mem_append_left _ (hpred x hx' m hm)
      · have : x = n := by simpa using hx'
        subst this
        exact List.mem_append_left _ (h3 m hm)
    · intro x hx
      rcases List.mem_append.1 hx with hx' | hx'
      · exact hdisj x hx'
      · have : x = n := by simpa using hx'
        subst this
        exact h2
    · simpa [List.nodup_append] using ⟨hnd, h1⟩
  | err h1 h2 h3 h4 =>
    refine ⟨hpred, ?_, hnd⟩
    intro x hx
    rw [List.mem_append]
    rintro (hx' | hx')
    · exact hdisj x hx hx'
    · have : x = n := by simpa using hx'
      subst this
      exact h1 hx

lemma structInv_reach {llm : LLMCall → CallResult} {jl : String → Except String JValue}
    {c c' : ExecConfig} (h : Reach llm jl c c') (hI : StructInv c) : StructInv c' := by
  induction h with
  | refl => exact hI
  | tail hab hbc ih =>
    obtain ⟨n, hst⟩ := hbc
    exact structInv_step hst ih

lemma edge_mem_preds {a b : GNode} (h : nodeEdge a b) : a ∈ nodePreds b := by
  unfold nodePreds
  exact List.mem_map.2 ⟨(a, b), List.mem_filter.2 ⟨h, by simp⟩, rfl⟩

/-- In a structurally sound configuration, every graph ancestor of a completed
node completed. -/
lemma done_ancestors {c : ExecConfig} (hI : StructInv c) :
    ∀ x ∈ c.done, ∀ a, NodeReach a x → a ∈ c.done := by
  intro x hx a ha
  revert hx
  induction ha with
  | single h => intro hx; exact hI.1 _ hx a (edge_mem_preds h)
  | tail hab hbc ih => intro hx; exact ih (hI.1 _ hx _ (edge_mem_preds hbc))

/-- Once a node has failed, no transitive graph successor of it can ever step:
a successor's chain of predecessors would all have to be in `done`, but a
failed node never completes. -/
lemma failed_blocks_descendants {llm : LLMCall → CallResult}
    {jl : String → Except String JValue} {c : ExecConfig} {n m : GNode} {c' : ExecConfig}
    (hI : StructInv c) (hn : n ∈ c.failed) (hs : ExecStep llm jl c m c')
    (hr : NodeReach n m) : False := by
  have hpreds : ∀ p ∈ nodePreds m, p ∈ c.done := by
    cases hs with
    | ok h1 h2 h3 h4 => exact h3
    | err h1 h2 h3 h4 => exact h3
  obtain ⟨p, hrt, hedge⟩ := Relation.TransGen.tail'_iff.1 hr
  have hp : p ∈ c.done := hpreds p (edge_mem_preds hedge)
  rcases Relation.reflTransGen_iff_eq_or_transGen.1 hrt with heq | htg
  · subst heq
    exact hI.2.1 p hp hn
  · exact hI.2.1 n (done_ancestors hI p hp n htg) hn

lemma detInv_init (llm : LLMCall → CallResult) (jl : String → Except String JValue)
    (s : GenesisState) : DetInv llm jl s.user_idea (initConfig s) :=
  ⟨rfl, fun h => absurd h (List.not_mem_nil _), fun h => absurd h (List.not_mem_nil _),
   fun h => absurd h (List.not_mem_nil _)⟩

lemma mem_append_singleton {α : Type} {x n : α} {l : List α} :
    x ∈ l ++ [n] ↔ x ∈ l ∨ x = n := by
  simp [List.mem_append]

lemma detInv_step {llm : LLMCall → CallResult} {jl : String → Except String JValue}
    {idea : String} {c : ExecConfig} {n : GNode} {c' : ExecConfig}
    (hs : ExecStep llm jl c n c') (hI : DetInv llm jl idea c) : DetInv llm jl idea c' := by
  obtain ⟨hidea, hpo, hcd, hsa⟩ := hI
  obtain ⟨hui, hprd, hbr, har, -, -, -, -⟩ := step_preserves hs
  cases hs with
  | @ok u h1 h2 h3 h4 =>
    refine ⟨by rw [hui]; exact hidea, ?_, ?_, ?_⟩
    · intro hmem
      rcases mem_append_singleton.1 hmem with hold | heq
      · obtain ⟨ct, tk, i, hcall, hval⟩ := hpo hold
        refine ⟨ct, tk, i, hcall, ?_⟩
        have hne : n ≠ GNode.product_owner := fun h => h1 (h ▸ hold)
        rw [hprd hne, hval]
      · subst heq
        obtain ⟨ct, tk, i, hcall, hu⟩ := po_ok_inv h4
        subst hu
        exact ⟨ct, tk, i, by rw [← hidea]; exact hcall, by simp⟩
    · intro hmem
      rcases mem_append_singleton.1 hmem with hold | heq
      · obtain ⟨hpold, ct, tk, i, v, hcall, hparse, hval⟩ := hcd hold
        have hnp : n ≠ GNode.product_owner := fun h => by
          subst h
          exact h1 hpold
        have hnc : n ≠ GNode.creative_director := fun h => h1 (h ▸ hold)
        refine ⟨List.mem_append_left _ hpold, ct, tk, i, v, ?_, hparse,
          by rw [hbr hnc, hval]⟩
        rw [hprd hnp]
        exact hcall
      · subst heq
        obtain ⟨ct, tk, i, v, hcall, hparse, hu⟩ := cd_ok_inv h4
        have hpold : GNode.product_owner ∈ c.done := by
          have := h3 GNode.product_owner
          simp [nodePreds, nodeEdges] at this
          exact this
        refine ⟨List.mem_append_left _ hpold, ct, tk, i, v, ?_, hparse, ?_⟩
        · subst hu
          simpa [hidea] using hcall
        · subst hu
          simp
    · intro hmem
      rcases mem_append_singleton.1 hmem with hold | heq
      · obtain ⟨hpold, ct, tk, i, v, hcall, hparse, hval⟩ := hsa hold
        have hnp : n ≠ GNode.product_owner := fun h => by
          subst h
          exact h1 hpold
        have hns : n ≠ GNode.solutions_architect := fun h => h1 (h ▸ hold)
        refine ⟨List.mem_append_left _ hpold, ct, tk, i, v, ?_, hparse,
          by rw [har hns, hval]⟩
        rw [hprd hnp]
        exact hcall
      · subst heq
        obtain ⟨ct, tk, i, v, hcall, hparse, hu⟩ := sa_ok_inv h4
        have hpold : GNode.product_owner ∈ c.done := by
          have := h3 GNode.product_owner
          simp [nodePreds, nodeEdges] at this
          exact this
        refine ⟨List.mem_append_left _ hpold, ct, tk, i, v, ?_, hparse, ?_⟩
        · subst hu
          simpa [hidea] using hcall
        · subst hu
          simp
  | err h1 h2 h3 h4 =>
    exact ⟨hidea, hpo, hcd, hsa⟩

lemma detInv_reach {llm : LLMCall → CallResult} {jl : String → Except String JValue}
    {idea : String} {c c' : ExecConfig} (h : Reach llm jl c c')
    (hI : DetInv llm jl idea c) : DetInv llm jl idea c' := by
  induction h with
  | refl => exact hI
  | tail hab hbc ih =>
    obtain ⟨n, hst⟩ := hbc
    exact detInv_step hst ih

/-! ## Facts about the graph topology -/

lemma no_edge_to_po (b : GNode) : ¬ nodeEdge b GNode.product_owner := by
  cases b <;> simp [nodeEdge, nodeEdges]

lemma no_path_to_po (a : GNode) : ¬ NodeReach a GNode.product_owner := by
  intro h
  obtain ⟨b, -, hedge⟩ := Relation.TransGen.tail'_iff.1 h
  exact no_edge_to_po b hedge

lemma edge_to_sa {b : GNode} (h : nodeEdge b GNode.solutions_architect) :
    b = GNode.product_owner := by
  cases b <;> simp_all [nodeEdge, nodeEdges]

lemma edge_to_cd {b : GNode} (h : nodeEdge b GNode.creative_director) :
    b = GNode.product_owner := by
  cases b <;> simp_all [nodeEdge, nodeEdges]

/-- The two fan-out branches carry no dependency on each other. -/
lemma branches_independent :
    ¬ NodeReach GNode.creative_director GNode.solutions_architect ∧
    ¬ NodeReach GNode.solutions_architect GNode.creative_director := by
  constructor
  · intro h
    obtain ⟨b, hrt, hedge⟩ := Relation.TransGen.tail'_iff.1 h
    rw [edge_to_sa hedge] at hrt
    rcases Relation.reflTransGen_iff_eq_or_transGen.1 hrt with heq | htg
    · exact absurd heq.symm (by simp)
    · exact no_path_to_po _ htg
  · intro h
    obtain ⟨b, hrt, hedge⟩ := Relation.TransGen.tail'_iff.1 h
    rw [edge_to_cd hedge] at hrt
    rcases Relation.reflTransGen_iff_eq_or_transGen.1 hrt with heq | htg
    · exact absurd heq.symm (by simp)
    · exact no_path_to_po _ htg

lemma lastWrite_acc (p : String) (ws : List (String × String)) :
    ∀ a : Option String,
      ws.foldl (fun acc w => if w.1 = p then some w.2 else acc) a =
        match lastWrite ws p with
        | some v => some v
        | none => a := by
  induction ws with
  | nil => intro a; rfl
  | cons w ws ih =>
    intro a
    rw [List.foldl_cons, ih]
    have hcons : lastWrite (w :: ws) p =
        match lastWrite ws p with
        | some v => some v
        | none => if w.1 = p then some w.2 else none := by
      unfold lastWrite
      rw [List.foldl_cons]
      exact ih _
    rw [hcons]
    cases hlw : lastWrite ws p with
    | some v => rfl
    | none =>
      by_cases hw : w.1 = p <;> simp [hw]

lemma applyWrites_apply (ws : List (String × String)) (fs : FileSys) (p : String) :
    applyWrites fs ws p =
      match lastWrite ws p with
      | some v => some v
      | none => fs p := by
  induction ws generalizing fs with
  | nil => rfl
  | cons w ws ih =>
    show applyWrites (setFile fs w.1 w.2) ws p = _
    rw [ih]
    have hcons : lastWrite (w :: ws) p =
        match lastWrite ws p with
        | some v => some v
        | none => if w.1 = p then some w.2 else none := by
      unfold lastWrite
      rw [List.foldl_cons]
      exact lastWrite_acc p ws _
    rw [hcons]
    cases hlw : lastWrite ws p with
    | some v => rfl
    | none =>
      by_cases hw : w.1 = p
      · simp [setFile, hw]
      · simp only [setFile]
        by_cases hp : p = w.1
        · exact absurd hp.symm hw
        · simp [hp, hw]

/-- Applying the same write list twice is the same as applying it once. -/
lemma applyWrites_idem (fs : FileSys) (ws : List (String × String)) :
    applyWrites (applyWrites fs ws) ws = applyWrites fs ws := by
  funext p
  rw [applyWrites_apply, applyWrites_apply]
  cases hlw : lastWrite ws p with
  | some v => rfl
  | none => rfl

/-- The six fixed system prompts are pairwise distinct (dispatch is unambiguous). -/
lemma prompts_distinct :
    cdSystemPrompt ≠ poSystemPrompt ∧
    saSystemPrompt ≠ poSystemPrompt ∧ saSystemPrompt ≠ cdSystemPrompt ∧
    ldSystemPrompt ≠ poSystemPrompt ∧ ldSystemPrompt ≠ cdSystemPrompt ∧
    ldSystemPrompt ≠ saSystemPrompt ∧
    ghSystemPrompt ≠ poSystemPrompt ∧ ghSystemPrompt ≠ cdSystemPrompt ∧
    ghSystemPrompt ≠ saSystemPrompt ∧ ghSystemPrompt ≠ ldSystemPrompt ∧
    obSystemPrompt ≠ poSystemPrompt ∧ obSystemPrompt ≠ cdSystemPrompt ∧
    obSystemPrompt ≠ saSystemPrompt ∧ obSystemPrompt ≠ ldSystemPrompt ∧
    obSystemPrompt ≠ ghSystemPrompt := by
  decide

lemma cannedLLM_po (r : CannedSet) {c : LLMCall} (hc : c.system = poSystemPrompt) :
    cannedLLM r c = CallResult.ok r.prd 0 1 := by
  unfold cannedLLM
  rw [hc, if_pos rfl]

lemma cannedLLM_cd (r : CannedSet) {c : LLMCall} (hc : c.system = cdSystemPrompt) :
    cannedLLM r c = CallResult.ok r.brand 0 2 := by
  unfold cannedLLM
  rw [hc, if_neg prompts_distinct.1, if_pos rfl]

lemma cannedLLM_sa (r : CannedSet) {c : LLMCall} (hc : c.system = saSystemPrompt) :
    cannedLLM r c = CallResult.ok r.arch 0 3 := by
  unfold cannedLLM
  rw [hc, if_neg prompts_distinct.2.1, if_neg prompts_distinct.2.2.1, if_pos rfl]

lemma cannedLLM_ld (r : CannedSet) {c : LLMCall} (hc : c.system = ldSystemPrompt) :
    cannedLLM r c = CallResult.ok r.code 0 4 := by
  unfold cannedLLM
  rw [hc, if_neg prompts_distinct.2.2.2.1, if_neg prompts_distinct.2.2.2.2.1,
    if_neg prompts_distinct.2.2.2.2.2.1, if_pos rfl]

lemma cannedLLM_gh (r : CannedSet) {c : LLMCall} (hc : c.system = ghSystemPrompt) :
    cannedLLM r c = CallResult.ok r.marketing 0 5 := by
  unfold cannedLLM
  rw [hc, if_neg prompts_distinct.2.2.2.2.2.2.1, if_neg prompts_distinct.2.2.2.2.2.2.2.1,
    if_neg prompts_distinct.2.2.2.2.2.2.2.2.1, if_neg prompts_distinct.2.2.2.2.2.2.2.2.2.1,
    if_pos rfl]

lemma llmCdFails_cd {c : LLMCall} (hc : c.system = cdSystemPrompt) :
    llmCdFails c = CallResult.error "ReadTimeout" := by
  unfold llmCdFails
  rw [hc, if_pos rfl]

lemma llmCdFails_other {c : LLMCall} (hc : c.system ≠ cdSystemPrompt) :
    llmCdFails c = cannedLLM cannedMain c := by
  unfold llmCdFails
  rw [if_neg hc]

/-! ## Symbolic evaluation of the agents under a canned backend -/

lemma agent_po_canned (r : CannedSet) (s : GenesisState) :
    agent_product_owner (cannedLLM r) s =
      Except.ok { prd_content := some r.prd, messages := s.messages ++ [⟨r.prd, 1⟩] } := by
  unfold agent_product_owner
  rw [cannedLLM_po r rfl]

lemma agent_cd_canned (r : CannedSet) {jl : String → Except String JValue} {v : JValue}
    (hparse : jl r.brand = Except.ok v) (s : GenesisState) :
    agent_creative_director (cannedLLM r) jl s =
      Except.ok { brand_assets := some v, messages := s.messages ++ [⟨r.brand, 2⟩] } := by
  unfold agent_creative_director
  rw [cannedLLM_cd r rfl]
  show (match jl r.brand with
    | Except.error e => Except.error e
    | Except.ok w =>
      Except.ok { brand_assets := some w, messages := s.messages ++ [⟨r.brand, 2⟩] } :
      Except String AgentUpdate) = _
  rw [hparse]

lemma agent_sa_canned (r : CannedSet) {jl : String → Except String JValue} {v : JValue}
    (hparse : jl r.arch = Except.ok v) (s : GenesisState) :
    agent_solutions_architect (cannedLLM r) jl s =
      Except.ok { architecture_map := some v, messages := s.messages ++ [⟨r.arch, 3⟩] } := by
  unfold agent_solutions_architect
  rw [cannedLLM_sa r rfl]
  show (match jl r.arch with
    | Except.error e => Except.error e
    | Except.ok w =>
      Except.ok { architecture_map := some w, messages := s.messages ++ [⟨r.arch, 3⟩] } :
      Except String AgentUpdate) = _
  rw [hparse]

lemma agent_ld_canned (r : CannedSet) {jl : String → Except String JValue} {v : JValue}
    (hparse : jl r.code = Except.ok v) (s : GenesisState) :
    agent_lead_developer (cannedLLM r) jl s =
      Except.ok { source_code := some v, messages := s.messages ++ [⟨r.code, 4⟩] } := by
  unfold agent_lead_developer
  rw [cannedLLM_ld r rfl]
  show (match jl r.code with
    | Except.error e => Except.error e
    | Except.ok w =>
      Except.ok { source_code := some w, messages := s.messages ++ [⟨r.code, 4⟩] } :
      Except String AgentUpdate) = _
  rw [hparse]

lemma agent_gh_canned (r : CannedSet) {s : GenesisState}
    {bfs sfs : List (String × JValue)}
    (hbrand : s.brand_assets = JValue.obj bfs) (hsource : s.source_code = JValue.obj sfs) :
    agent_growth_hacker (cannedLLM r) s =
      Except.ok { marketing_plan := some r.marketing, messages := s.messages ++ [⟨r.marketing, 5⟩] } := by
  unfold agent_growth_hacker
  rw [hbrand, hsource]
  show (match cannedLLM r (ghCallOf s.user_idea s.prd_content
      ((List.lookup "brand_name" bfs).getD (JValue.str "N/A"))
      ((List.lookup "tagline" bfs).getD (JValue.str "N/A")) sfs.length) with
    | CallResult.error e => Except.error e
    | CallResult.ok content _tokens id =>
      Except.ok { marketing_plan := some content, messages := s.messages ++ [⟨content, id⟩] } :
      Except String AgentUpdate) = _
  rw [cannedLLM_gh r rfl]

lemma step_preds {llm : LLMCall → CallResult} {jl : String → Except String JValue}
    {c : ExecConfig} {n : GNode} {c' : ExecConfig} (hs : ExecStep llm jl c n c') :
    ∀ m ∈ nodePreds n, m ∈ c.done := by
  cases hs with
  | ok h1 h2 h3 h4 => exact h3
  | err h1 h2 h3 h4 => exact h3

lemma step_not_done {llm : LLMCall → CallResult} {jl : String → Except String JValue}
    {c : ExecConfig} {n : GNode} {c' : ExecConfig} (hs : ExecStep llm jl c n c') :
    n ∉ c.done ∧ n ∉ c.failed := by
  cases hs with
  | ok h1 h2 h3 h4 => exact ⟨h1, h2⟩
  | err h1 h2 h3 h4 => exact ⟨h1, h2⟩

/-- End-to-end run of the compiled graph under a canned backend whose three
structured responses parse to mappings: the run succeeds and the final state is
determined — five fields hold the canned values and `install_guide` is absent. -/
lemma runPipeline_canned (r : CannedSet) {jl : String → Except String JValue}
    (idea : String) {bfs afs sfs : List (String × JValue)}
    (hb : jl r.brand = Except.ok (JValue.obj bfs))
    (ha : jl r.arch = Except.ok (JValue.obj afs))
    (hs : jl r.code = Except.ok (JValue.obj sfs)) :
    runPipeline (cannedLLM r) jl (create_initial_state idea) =
      Except.ok
        { user_idea := idea
          prd_content := r.prd
          brand_assets := JValue.obj bfs
          architecture_map := JValue.obj afs
          source_code := JValue.obj sfs
          marketing_plan := r.marketing
          install_guide := none
          messages := [⟨r.prd, 1⟩, ⟨r.brand, 2⟩, ⟨r.arch, 3⟩, ⟨r.code, 4⟩, ⟨r.marketing, 5⟩]
          execution_metadata := (create_initial_state idea).execution_metadata } := by
  unfold runPipeline
  simp only [agent_po_canned r, agent_cd_canned r hb, agent_sa_canned r ha,
    agent_ld_canned r hs, applyUpdate, addMessages, upsertMessage, create_initial_state,
    Option.getD_some, Option.getD_none]
  rw [agent_gh_canned r rfl rfl]
  simp [addMessages, upsertMessage]

lemma jlFixture_brand : jlFixture "BRANDJ" = Except.ok brandVal := rfl

lemma jlFixture_arch : jlFixture "ARCHJ" = Except.ok archVal := rfl

lemma jlFixture_code : jlFixture "CODEJ" = Except.ok codeVal := rfl

lemma jlFixture_empty : jlFixture "\x7b\x7d" = Except.ok (JValue.obj []) := rfl

lemma jlFixture_bad : jlFixture "NOTJSON" = Except.error "json.decoder.JSONDecodeError" := rfl

lemma demoStep01 :
    ExecStep (cannedLLM cannedMain) jlFixture demoC0 GNode.product_owner demoC1 :=
  @ExecStep.ok (cannedLLM cannedMain) jlFixture demoC0 GNode.product_owner
    ⟨some "PRD TEXT", none, none, none, none, none, [⟨"PRD TEXT", 1⟩]⟩
    (by simp [demoC0, initConfig]) (by simp [demoC0, initConfig])
    (by decide)
    (agent_po_canned cannedMain (create_initial_state "Demo"))

lemma demoStep12 :
    ExecStep (cannedLLM cannedMain) jlFixture demoC1 GNode.creative_director demoC2 :=
  @ExecStep.ok (cannedLLM cannedMain) jlFixture demoC1 GNode.creative_director
    ⟨none, some brandVal, none, none, none, none, [⟨"PRD TEXT", 1⟩, ⟨"BRANDJ", 2⟩]⟩
    (by simp [demoC1]) (by simp [demoC1])
    (by decide)
    (agent_cd_canned cannedMain jlFixture_brand demoStA)

lemma demoStep23 :
    ExecStep (cannedLLM cannedMain) jlFixture demoC2 GNode.solutions_architect demoC3 :=
  @ExecStep.ok (cannedLLM cannedMain) jlFixture demoC2 GNode.solutions_architect
    ⟨none, none, some archVal, none, none, none,
      [⟨"PRD TEXT", 1⟩, ⟨"BRANDJ", 2⟩, ⟨"ARCHJ", 3⟩]⟩
    (by simp [demoC2]) (by simp [demoC2])
    (by decide)
    (agent_sa_canned cannedMain jlFixture_arch demoStB)

lemma demoStep34 :
    ExecStep (cannedLLM cannedMain) jlFixture demoC3 GNode.lead_developer demoC4 :=
  @ExecStep.ok (cannedLLM cannedMain) jlFixture demoC3 GNode.lead_developer
    ⟨none, none, none, some codeVal, none, none,
      [⟨"PRD TEXT", 1⟩, ⟨"BRANDJ", 2⟩, ⟨"ARCHJ", 3⟩, ⟨"CODEJ", 4⟩]⟩
    (by simp [demoC3]) (by simp [demoC3])
    (by decide)
    (agent_ld_canned cannedMain jlFixture_code demoStC)

lemma demoReach3 :
    Reach (cannedLLM cannedMain) jlFixture demoC0 demoC3 :=
  Relation.ReflTransGen.tail
    (Relation.ReflTransGen.tail
      (Relation.ReflTransGen.tail Relation.ReflTransGen.refl
        ⟨GNode.product_owner, demoStep01⟩)
      ⟨GNode.creative_director, demoStep12⟩)
    ⟨GNode.solutions_architect, demoStep23⟩

lemma cexStep01 :
    ExecStep (cannedLLM cannedEmptyBrand) jlFixture demoC0 GNode.product_owner demoC1 :=
  @ExecStep.ok (cannedLLM cannedEmptyBrand) jlFixture demoC0 GNode.product_owner
    ⟨some "PRD TEXT", none, none, none, none, none, [⟨"PRD TEXT", 1⟩]⟩
    (by simp [demoC0, initConfig]) (by simp [demoC0, initConfig])
    (by decide)
    (agent_po_canned cannedEmptyBrand (create_initial_state "Demo"))

lemma cexStep12 :
    ExecStep (cannedLLM cannedEmptyBrand) jlFixture demoC1 GNode.creative_director cexC2 :=
  @ExecStep.ok (cannedLLM cannedEmptyBrand) jlFixture demoC1 GNode.creative_director
    ⟨none, some (JValue.obj []), none, none, none, none, [⟨"PRD TEXT", 1⟩, ⟨"\x7b\x7d", 2⟩]⟩
    (by simp [demoC1]) (by simp [demoC1])
    (by decide)
    (agent_cd_canned cannedEmptyBrand jlFixture_empty demoStA)

lemma cexStep23 :
    ExecStep (cannedLLM cannedEmptyBrand) jlFixture cexC2 GNode.solutions_architect cexC3 :=
  @ExecStep.ok (cannedLLM cannedEmptyBrand) jlFixture cexC2 GNode.solutions_architect
    ⟨none, none, some archVal, none, none, none,
      [⟨"PRD TEXT", 1⟩, ⟨"\x7b\x7d", 2⟩, ⟨"ARCHJ", 3⟩]⟩
    (by simp [cexC2]) (by simp [cexC2])
    (by decide)
    (agent_sa_canned cannedEmptyBrand jlFixture_arch cexStB)

lemma cexStep34 :
    ExecStep (cannedLLM cannedEmptyBrand) jlFixture cexC3 GNode.lead_developer cexC4 :=
  @ExecStep.ok (cannedLLM cannedEmptyBrand) jlFixture cexC3 GNode.lead_developer
    ⟨none, none, none, some codeVal, none, none,
      [⟨"PRD TEXT", 1⟩, ⟨"\x7b\x7d", 2⟩, ⟨"ARCHJ", 3⟩, ⟨"CODEJ", 4⟩]⟩
    (by simp [cexC3]) (by simp [cexC3])
    (by decide)
    (agent_ld_canned cannedEmptyBrand jlFixture_code cexStC)

lemma cexReach3 :
    Reach (cannedLLM cannedEmptyBrand) jlFixture demoC0 cexC3 :=
  Relation.ReflTransGen.tail
    (Relation.ReflTransGen.tail
      (Relation.ReflTransGen.tail Relation.ReflTransGen.refl
        ⟨GNode.product_owner, cexStep01⟩)
      ⟨GNode.creative_director, cexStep12⟩)
    ⟨GNode.solutions_architect, cexStep23⟩

/-! ## Claim theorems -/

/-- C10: for every input idea string, `create_initial_state` returns a state
whose `user_idea` equals the input, whose five output fields are initialized to
empty values (`prd_content` and `marketing_plan` to the empty string;
`brand_assets`, `architecture_map` and `source_code` to empty mappings), whose
`messages` list is empty, and whose `execution_metadata` has `start_time` and
`end_time` `None` and `total_tokens` 0 — an unpopulated field is the same empty
value a legitimately empty agent output would produce, and the `install_guide`
key is absent entirely (`none`) until written. -/
theorem C10_initial_state (idea : String) :
    create_initial_state idea =
      { user_idea := idea
        prd_content := ""
        brand_assets := JValue.obj []
        architecture_map := JValue.obj []
        source_code := JValue.obj []
        marketing_plan := ""
        install_guide := none
        messages := []
        execution_metadata :=
          { start_time := none, end_time := none, total_tokens := 0, agent_timings := [],
            project_id := none } } := rfl

/-- C9: export is idempotent — for every final state and output directory,
performing `save_output`'s writes twice on any file system leaves exactly the
file system of performing them once (each write is a deterministic function of
the state alone, and the second call overwrites with the same bytes). -/
theorem C9_export_idempotent (fs : FileSys) (st : GenesisState) (dir : String) :
    applyWrites (applyWrites fs (save_output st dir).writes) (save_output st dir).writes =
      applyWrites fs (save_output st dir).writes :=
  applyWrites_idem fs (save_output st dir).writes

/-- C7: Brand Designer and Architecture Planner never observe each other's
output — `agent_creative_director`'s returned update is unchanged when
`architecture_map` is replaced by any value (its prompt is built only from
`user_idea` and `prd_content`), and symmetrically
`agent_solutions_architect`'s update is independent of `brand_assets`. -/
theorem C7_branch_isolation :
    (∀ (llm : LLMCall → CallResult) (jl : String → Except String JValue)
        (s : GenesisState) (v : JValue),
      agent_creative_director llm jl { s with architecture_map := v } =
        agent_creative_director llm jl s) ∧
    (∀ (llm : LLMCall → CallResult) (jl : String → Except String JValue)
        (s : GenesisState) (v : JValue),
      agent_solutions_architect llm jl { s with brand_assets := v } =
        agent_solutions_architect llm jl s) :=
  ⟨fun _ _ _ _ => rfl, fun _ _ _ _ => rfl⟩

/-- C1 (amended): whenever `lead_developer` fires in a reachable configuration,
both Brand Designer and Architecture Planner have already returned
successfully, and `brand_assets` / `architecture_map` hold exactly the parsed
backend responses of those calls — hence they are non-empty whenever those
parsed responses are non-empty mappings.  (The original claim's unconditional
non-emptiness fails: the join waits for completion only, see the
counterexample.) -/
theorem C1_join_amended (llm : LLMCall → CallResult) (jl : String → Except String JValue)
    (s₀ : GenesisState) (c c' : ExecConfig)
    (hR : Reach llm jl (initConfig s₀) c)
    (hS : ExecStep llm jl c GNode.lead_developer c') :
    GNode.creative_director ∈ c.done ∧ GNode.solutions_architect ∈ c.done ∧
    (∃ ct tk i v, llm (cdCallOf s₀.user_idea c.st.prd_content) = CallResult.ok ct tk i ∧
      jl ct = Except.ok v ∧ c.st.brand_assets = v ∧
      (∀ l, v = JValue.obj l → l ≠ [] → c.st.brand_assets ≠ JValue.obj [])) ∧
    (∃ ct tk i v, llm (saCallOf s₀.user_idea c.st.prd_content) = CallResult.ok ct tk i ∧
      jl ct = Except.ok v ∧ c.st.architecture_map = v ∧
      (∀ l, v = JValue.obj l → l ≠ [] → c.st.architecture_map ≠ JValue.obj [])) := by
  have hI := detInv_reach hR (detInv_init llm jl s₀)
  have hcd : GNode.creative_director ∈ c.done :=
    step_preds hS GNode.creative_director (by decide)
  have hsa : GNode.solutions_architect ∈ c.done :=
    step_preds hS GNode.solutions_architect (by decide)
  obtain ⟨-, ct, tk, i, v, hcall, hparse, hval⟩ := hI.2.2.1 hcd
  obtain ⟨-, ct', tk', i', v', hcall', hparse', hval'⟩ := hI.2.2.2 hsa
  refine ⟨hcd, hsa, ⟨ct, tk, i, v, hcall, hparse, hval, ?_⟩,
    ⟨ct', tk', i', v', hcall', hparse', hval', ?_⟩⟩
  · intro l hv hl
    rw [hval, hv]
    intro hcon
    injection hcon with h'
    exact hl h'
  · intro l hv hl
    rw [hval', hv]
    intro hcon
    injection hcon with h'
    exact hl h'

/-- C1 witness: in the canned run with non-empty parsed branch responses, the
join node fires after both branches, and the amended conclusion holds at that
configuration. -/
theorem C1_join_amended_witness :
    Reach (cannedLLM cannedMain) jlFixture (initConfig (create_initial_state "Demo")) demoC3 ∧
    ExecStep (cannedLLM cannedMain) jlFixture demoC3 GNode.lead_developer demoC4 ∧
    (GNode.creative_director ∈ demoC3.done ∧ GNode.solutions_architect ∈ demoC3.done ∧
    (∃ ct tk i v,
      cannedLLM cannedMain (cdCallOf (create_initial_state "Demo").user_idea demoC3.st.prd_content) =
        CallResult.ok ct tk i ∧
      jlFixture ct = Except.ok v ∧ demoC3.st.brand_assets = v ∧
      (∀ l, v = JValue.obj l → l ≠ [] → demoC3.st.brand_assets ≠ JValue.obj [])) ∧
    (∃ ct tk i v,
      cannedLLM cannedMain (saCallOf (create_initial_state "Demo").user_idea demoC3.st.prd_content) =
        CallResult.ok ct tk i ∧
      jlFixture ct = Except.ok v ∧ demoC3.st.architecture_map = v ∧
      (∀ l, v = JValue.obj l → l ≠ [] → demoC3.st.architecture_map ≠ JValue.obj []))) :=
  ⟨demoReach3, demoStep34,
    C1_join_amended (cannedLLM cannedMain) jlFixture (create_initial_state "Demo")
      demoC3 demoC4 demoReach3 demoStep34⟩

/-- C1 counterexample: the claim's non-emptiness clause is false on the code.
With a backend whose brand response parses to the empty mapping (valid JSON
`\x7b\x7d`), a configuration is reachable in which `lead_developer` fires while
`brand_assets` is the empty mapping: the join checks completion of the two
branches, not non-emptiness of their outputs. -/
theorem C1_join_counterexample :
    Reach (cannedLLM cannedEmptyBrand) jlFixture (initConfig (create_initial_state "Demo")) cexC3 ∧
    ExecStep (cannedLLM cannedEmptyBrand) jlFixture cexC3 GNode.lead_developer cexC4 ∧
    cexC3.st.brand_assets = JValue.obj [] :=
  ⟨cexReach3, cexStep34, rfl⟩

lemma agent_po_cdFails (s : GenesisState) :
    agent_product_owner llmCdFails s =
      Except.ok { prd_content := some cannedMain.prd, messages := s.messages ++ [⟨cannedMain.prd, 1⟩] } := by
  unfold agent_product_owner
  rw [llmCdFails_other (Ne.symm prompts_distinct.1), cannedLLM_po cannedMain rfl]

lemma agent_cd_cdFails (jl : String → Except String JValue) (s : GenesisState) :
    agent_creative_director llmCdFails jl s = Except.error "ReadTimeout" := by
  unfold agent_creative_director
  rw [llmCdFails_cd rfl]

lemma cdfStep01 :
    ExecStep llmCdFails jlFixture demoC0 GNode.product_owner demoC1 :=
  @ExecStep.ok llmCdFails jlFixture demoC0 GNode.product_owner
    ⟨some "PRD TEXT", none, none, none, none, none, [⟨"PRD TEXT", 1⟩]⟩
    (by simp [demoC0, initConfig]) (by simp [demoC0, initConfig])
    (by decide)
    (agent_po_cdFails (create_initial_state "Demo"))

lemma cdfStep12 :
    ExecStep llmCdFails jlFixture demoC1 GNode.creative_director cdfC2 :=
  @ExecStep.err llmCdFails jlFixture demoC1 GNode.creative_director "ReadTimeout"
    (by simp [demoC1]) (by simp [demoC1])
    (by decide)
    (agent_cd_cdFails jlFixture demoStA)

lemma cdfReach1 : Reach llmCdFails jlFixture demoC0 demoC1 :=
  Relation.ReflTransGen.tail Relation.ReflTransGen.refl ⟨GNode.product_owner, cdfStep01⟩

/-- C2: if a node fails (raises), the failing step leaves the state object
unchanged (fields already written by completed predecessors remain present) and
no transitive graph successor of the failed node is ever invoked afterwards; at
the whole-pipeline level the failure surfaces: when the Brand Designer raises
after a successful Requirements Drafter, `runPipeline` returns that very error
(regardless of what the Architecture Planner would do), so the Run Driver
receives it. -/
theorem C2_failure_propagation (llm : LLMCall → CallResult)
    (jl : String → Except String JValue) (s₀ : GenesisState)
    (c : ExecConfig) (n : GNode) (c' : ExecConfig) (e : String)
    (hR : Reach llm jl (initConfig s₀) c)
    (hS : ExecStep llm jl c n c')
    (hE : runNode llm jl n c.st = Except.error e) :
    (c'.st = c.st ∧ c'.done = c.done ∧ c'.failed = c.failed ++ [n]) ∧
    (∀ c'' m c''', Reach llm jl c' c'' → ExecStep llm jl c'' m c''' → ¬ NodeReach n m) ∧
    (∀ u₁ e₂, agent_product_owner llm s₀ = Except.ok u₁ →
      agent_creative_director llm jl (applyUpdate s₀ u₁) = Except.error e₂ →
      runPipeline llm jl s₀ = Except.error e₂) := by
  cases hS with
  | ok h1 h2 h3 h4 =>
    rw [h4] at hE
    exact absurd hE (by simp)
  | err h1 h2 h3 h4 =>
    refine ⟨⟨rfl, rfl, rfl⟩, ?_, ?_⟩
    · intro c'' m c''' hR' hS' hNR
      have hstep : ExecStep llm jl c n ⟨c.st, c.done, c.failed ++ [n]⟩ :=
        ExecStep.err h1 h2 h3 h4
      have hReachInit : Reach llm jl (initConfig s₀) c'' :=
        Relation.ReflTransGen.trans (Relation.ReflTransGen.tail hR ⟨n, hstep⟩) hR'
      have hI'' := structInv_reach hReachInit (structInv_init s₀)
      have hfail : n ∈ c''.failed := reach_failed_mono hR' (by simp)
      exact failed_blocks_descendants hI'' hfail hS' hNR
    · intro u₁ e₂ hpo hcd
      unfold runPipeline
      simp only [hpo, hcd]

/-- C2 witness: in the run whose Brand Designer call times out after a
successful Requirements Drafter, the failing step and all three conclusions
hold concretely. -/
theorem C2_failure_propagation_witness :
    Reach llmCdFails jlFixture (initConfig (create_initial_state "Demo")) demoC1 ∧
    runNode llmCdFails jlFixture GNode.creative_director demoC1.st = Except.error "ReadTimeout" ∧
    ((cdfC2.st = demoC1.st ∧ cdfC2.done = demoC1.done ∧
      cdfC2.failed = demoC1.failed ++ [GNode.creative_director]) ∧
    (∀ c'' m c''', Reach llmCdFails jlFixture cdfC2 c'' →
      ExecStep llmCdFails jlFixture c'' m c''' → ¬ NodeReach GNode.creative_director m) ∧
    (∀ u₁ e₂, agent_product_owner llmCdFails (create_initial_state "Demo") = Except.ok u₁ →
      agent_creative_director llmCdFails jlFixture
        (applyUpdate (create_initial_state "Demo") u₁) = Except.error e₂ →
      runPipeline llmCdFails jlFixture (create_initial_state "Demo") = Except.error e₂)) :=
  ⟨cdfReach1, agent_cd_cdFails jlFixture demoStA,
    C2_failure_propagation llmCdFails jlFixture (create_initial_state "Demo")
      demoC1 GNode.creative_director cdfC2 "ReadTimeout" cdfReach1 cdfStep12
      (agent_cd_cdFails jlFixture demoStA)⟩

/-- C4: per execution step, the input `user_idea` never changes; a successful
node's returned dict contains exactly its owned output field (`prd_content` ↔
product owner, `brand_assets` ↔ creative director, `architecture_map` ↔
solutions architect, `source_code` ↔ lead developer, `marketing_plan` ↔ growth
hacker); every other output field is preserved by the step, so a field is never
overwritten by a later node; a node that already ran (successfully or not)
cannot fire again, so each field is written at most once; and — the response id
being fresh, as LangChain's uuids are — the message history is only appended
to, never rewritten. -/
theorem C4_write_once (llm : LLMCall → CallResult) (jl : String → Except String JValue)
    (c : ExecConfig) (n : GNode) (c' : ExecConfig)
    (hS : ExecStep llm jl c n c')
    (hNd : (c.st.messages.map ChatMessage.id).Nodup)
    (hfresh : ∀ ct tk i, (∃ call, llm call = CallResult.ok ct tk i) →
      i ∉ c.st.messages.map ChatMessage.id) :
    c'.st.user_idea = c.st.user_idea ∧
    (n ∉ c.done ∧ n ∉ c.failed) ∧
    (∀ u, runNode llm jl n c.st = Except.ok u →
      ((u.prd_content.isSome ↔ n = GNode.product_owner) ∧
       (u.brand_assets.isSome ↔ n = GNode.creative_director) ∧
       (u.architecture_map.isSome ↔ n = GNode.solutions_architect) ∧
       (u.source_code.isSome ↔ n = GNode.lead_developer) ∧
       (u.marketing_plan.isSome ↔ n = GNode.growth_hacker))) ∧
    (n ≠ GNode.product_owner → c'.st.prd_content = c.st.prd_content) ∧
    (n ≠ GNode.creative_director → c'.st.brand_assets = c.st.brand_assets) ∧
    (n ≠ GNode.solutions_architect → c'.st.architecture_map = c.st.architecture_map) ∧
    (n ≠ GNode.lead_developer → c'.st.source_code = c.st.source_code) ∧
    (n ≠ GNode.growth_hacker → c'.st.marketing_plan = c.st.marketing_plan) ∧
    (∃ tl, c'.st.messages = c.st.messages ++ tl) := by
  obtain ⟨hui, hprd, hbr, har, hsrc, hmk, -, -⟩ := step_preserves hS
  refine ⟨hui, step_not_done hS, ?_, hprd, hbr, har, hsrc, hmk, ?_⟩
  · intro u hu
    obtain ⟨ha, hb, hc, hd, he, -, -⟩ := runNode_ok_fields hu
    exact ⟨ha, hb, hc, hd, he⟩
  · cases hS with
    | @ok u h1 h2 h3 h4 =>
      obtain ⟨-, -, -, -, -, -, ct, tk, i, hex, hmsgs⟩ := runNode_ok_fields h4
      refine ⟨[⟨ct, i⟩], ?_⟩
      show addMessages c.st.messages u.messages = _
      rw [hmsgs]
      exact addMessages_append_fresh hNd (hfresh ct tk i hex)
    | err h1 h2 h3 h4 => exact ⟨[], by simp⟩

/-- C4 witness: the first step of the canned run satisfies the freshness
hypotheses, and the write-once conclusion holds there concretely. -/
theorem C4_write_once_witness :
    ((demoC0.st.messages.map ChatMessage.id).Nodup) ∧
    (∀ ct tk i, (∃ call, cannedLLM cannedMain call = CallResult.ok ct tk i) →
      i ∉ demoC0.st.messages.map ChatMessage.id) ∧
    (demoC1.st.user_idea = demoC0.st.user_idea ∧
    (GNode.product_owner ∉ demoC0.done ∧ GNode.product_owner ∉ demoC0.failed) ∧
    (∀ u, runNode (cannedLLM cannedMain) jlFixture GNode.product_owner demoC0.st = Except.ok u →
      ((u.prd_content.isSome ↔ GNode.product_owner = GNode.product_owner) ∧
       (u.brand_assets.isSome ↔ GNode.product_owner = GNode.creative_director) ∧
       (u.architecture_map.isSome ↔ GNode.product_owner = GNode.solutions_architect) ∧
       (u.source_code.isSome ↔ GNode.product_owner = GNode.lead_developer) ∧
       (u.marketing_plan.isSome ↔ GNode.product_owner = GNode.growth_hacker))) ∧
    (GNode.product_owner ≠ GNode.product_owner → demoC1.st.prd_content = demoC0.st.prd_content) ∧
    (GNode.product_owner ≠ GNode.creative_director → demoC1.st.brand_assets = demoC0.st.brand_assets) ∧
    (GNode.product_owner ≠ GNode.solutions_architect → demoC1.st.architecture_map = demoC0.st.architecture_map) ∧
    (GNode.product_owner ≠ GNode.lead_developer → demoC1.st.source_code = demoC0.st.source_code) ∧
    (GNode.product_owner ≠ GNode.growth_hacker → demoC1.st.marketing_plan = demoC0.st.marketing_plan) ∧
    (∃ tl, demoC1.st.messages = demoC0.st.messages ++ tl)) :=
  ⟨by simp [demoC0, initConfig, create_initial_state],
   fun ct tk i _ => by simp [demoC0, initConfig, create_initial_state],
   C4_write_once (cannedLLM cannedMain) jlFixture demoC0 GNode.product_owner demoC1
     demoStep01
     (by simp [demoC0, initConfig, create_initial_state])
     (fun ct tk i _ => by simp [demoC0, initConfig, create_initial_state])⟩

/-- C5: for every agent unit and every failure of its external generation call
(timeout / error) the unit re-raises exactly that failure to its caller, and
for the structured units a `json.loads` parse failure is likewise re-raised as
a hard error; in both cases the unit returns no update at all — no internal
retry, no default value, its owned shared-state field stays unwritten. -/
theorem C5_error_contract :
    (∀ (llm : LLMCall → CallResult) (s : GenesisState) (e : String),
      llm (poCallOf s.user_idea) = CallResult.error e →
      agent_product_owner llm s = Except.error e) ∧
    (∀ (llm : LLMCall → CallResult) (jl : String → Except String JValue)
        (s : GenesisState) (e : String),
      llm (cdCallOf s.user_idea s.prd_content) = CallResult.error e →
      agent_creative_director llm jl s = Except.error e) ∧
    (∀ (llm : LLMCall → CallResult) (jl : String → Except String JValue)
        (s : GenesisState) (ct : String) (tk i : Nat) (e : String),
      llm (cdCallOf s.user_idea s.prd_content) = CallResult.ok ct tk i →
      jl ct = Except.error e →
      agent_creative_director llm jl s = Except.error e) ∧
    (∀ (llm : LLMCall → CallResult) (jl : String → Except String JValue)
        (s : GenesisState) (e : String),
      llm (saCallOf s.user_idea s.prd_content) = CallResult.error e →
      agent_solutions_architect llm jl s = Except.error e) ∧
    (∀ (llm : LLMCall → CallResult) (jl : String → Except String JValue)
        (s : GenesisState) (ct : String) (tk i : Nat) (e : String),
      llm (saCallOf s.user_idea s.prd_content) = CallResult.ok ct tk i →
      jl ct = Except.error e →
      agent_solutions_architect llm jl s = Except.error e) ∧
    (∀ (llm : LLMCall → CallResult) (jl : String → Except String JValue)
        (s : GenesisState) (e : String),
      llm (ldCallOf s.user_idea s.architecture_map s.brand_assets) = CallResult.error e →
      agent_lead_developer llm jl s = Except.error e) ∧
    (∀ (llm : LLMCall → CallResult) (jl : String → Except String JValue)
        (s : GenesisState) (ct : String) (tk i : Nat) (e : String),
      llm (ldCallOf s.user_idea s.architecture_map s.brand_assets) = CallResult.ok ct tk i →
      jl ct = Except.error e →
      agent_lead_developer llm jl s = Except.error e) ∧
    (∀ (llm : LLMCall → CallResult) (s : GenesisState) (bn tg : JValue) (nf : Nat) (e : String),
      pyGet s.brand_assets "brand_name" (JValue.str "N/A") = Except.ok bn →
      pyGet s.brand_assets "tagline" (JValue.str "N/A") = Except.ok tg →
      pyLen s.source_code = Except.ok nf →
      llm (ghCallOf s.user_idea s.prd_content bn tg nf) = CallResult.error e →
      agent_growth_hacker llm s = Except.error e) ∧
    (∀ (llm : LLMCall → CallResult) (s : GenesisState) (fls : List String)
        (ts : JValue) (nf : Nat) (e : String),
      pyKeys s.source_code = Except.ok fls →
      pyGet s.architecture_map "tech_stack" (JValue.obj []) = Except.ok ts →
      pyLen s.source_code = Except.ok nf →
      llm (obCallOf s.user_idea s.architecture_map ts fls nf) = CallResult.error e →
      agent_onboarding_specialist llm s = Except.error e) := by
  refine ⟨?_, ?_, ?_, ?_, ?_, ?_, ?_, ?_, ?_⟩
  · intro llm s e h
    unfold agent_product_owner
    simp only [h]
  · intro llm jl s e h
    unfold agent_creative_director
    simp only [h]
  · intro llm jl s ct tk i e hc hj
    unfold agent_creative_director
    simp only [hc, hj]
  · intro llm jl s e h
    unfold agent_solutions_architect
    simp only [h]
  · intro llm jl s ct tk i e hc hj
    unfold agent_solutions_architect
    simp only [hc, hj]
  · intro llm jl s e h
    unfold agent_lead_developer
    simp only [h]
  · intro llm jl s ct tk i e hc hj
    unfold agent_lead_developer
    simp only [hc, hj]
  · intro llm s bn tg nf e hb ht hn hc
    unfold agent_growth_hacker
    simp only [hb, ht, hn, hc]
  · intro llm s fls ts nf e hk ht hn hc
    unfold agent_onboarding_specialist
    simp only [hk, ht, hn, hc]

/-- C5 witness: a timing-out backend makes the Requirements Drafter re-raise
the timeout, and a malformed structured response makes the Brand Designer
re-raise the parse failure — in both cases the unit returns that exact error. -/
theorem C5_error_contract_witness :
    (llmAllFail (poCallOf (create_initial_state "Demo").user_idea) =
      CallResult.error "APITimeoutError") ∧
    agent_product_owner llmAllFail (create_initial_state "Demo") =
      Except.error "APITimeoutError" ∧
    cannedLLM cannedBadBrand (cdCallOf (create_initial_state "Demo").user_idea
      (create_initial_state "Demo").prd_content) = CallResult.ok "NOTJSON" 0 2 ∧
    jlFixture "NOTJSON" = Except.error "json.decoder.JSONDecodeError" ∧
    agent_creative_director (cannedLLM cannedBadBrand) jlFixture (create_initial_state "Demo") =
      Except.error "json.decoder.JSONDecodeError" :=
  ⟨rfl,
   C5_error_contract.1 llmAllFail (create_initial_state "Demo") "APITimeoutError" rfl,
   cannedLLM_cd cannedBadBrand rfl,
   jlFixture_bad,
   C5_error_contract.2.2.1 (cannedLLM cannedBadBrand) jlFixture (create_initial_state "Demo")
     "NOTJSON" 0 2 "json.decoder.JSONDecodeError" (cannedLLM_cd cannedBadBrand rfl) jlFixture_bad⟩

lemma writeSourceFiles_strings (d : String) (l : List (String × String)) :
    writeSourceFiles d (l.map fun p => (p.1, JValue.str p.2)) =
      (l.map fun p => (pyJoin d p.1, p.2), none) := by
  induction l with
  | nil => rfl
  | cons p l ih =>
    simp only [List.map_cons, writeSourceFiles, ih]

/-- C3 (amended): given one canned backend response per unit, the three
structured ones valid per schema (parsing to mappings, with string-valued file
contents for the Code Generator), the compiled graph produces a final state
whose FIVE fields exactly equal the canned values, while `install_guide` stays
absent — `agent_onboarding_specialist` is not a node of `create_genesis_graph`
— and export writes one artifact file per populated field plus the generated
file mapping under matching relative paths, with no install-guide artifact. -/
theorem C3_round_trip_amended (r : CannedSet) (jl : String → Except String JValue)
    (idea : String) (bfs afs : List (String × JValue)) (sfiles : List (String × String))
    (dir : String)
    (hb : jl r.brand = Except.ok (JValue.obj bfs))
    (ha : jl r.arch = Except.ok (JValue.obj afs))
    (hsc : jl r.code = Except.ok (JValue.obj (sfiles.map fun p => (p.1, JValue.str p.2)))) :
    ∃ fin, runPipeline (cannedLLM r) jl (create_initial_state idea) = Except.ok fin ∧
      fin.prd_content = r.prd ∧
      fin.brand_assets = JValue.obj bfs ∧
      fin.architecture_map = JValue.obj afs ∧
      fin.source_code = JValue.obj (sfiles.map fun p => (p.1, JValue.str p.2)) ∧
      fin.marketing_plan = r.marketing ∧
      fin.install_guide = none ∧
      (save_output fin dir).failure = none ∧
      (save_output fin dir).writes =
        [(dir ++ "/PRD.md", r.prd),
         (dir ++ "/brand_guide.json", jsonDumps (JValue.obj bfs)),
         (dir ++ "/architecture.json", jsonDumps (JValue.obj afs))] ++
        (sfiles.map fun p => (pyJoin (dir ++ "/source_code") p.1, p.2)) ++
        [(dir ++ "/marketing_plan.md", r.marketing)] ∧
      (save_output fin dir).artifacts =
        [("prd", dir ++ "/PRD.md"),
         ("brand_assets", dir ++ "/brand_guide.json"),
         ("architecture", dir ++ "/architecture.json"),
         ("source_code", dir ++ "/source_code"),
         ("marketing_plan", dir ++ "/marketing_plan.md")] := by
  refine ⟨_, runPipeline_canned r idea hb ha hsc, rfl, rfl, rfl, rfl, rfl, rfl, ?_, ?_, ?_⟩
  · simp [save_output, writeSourceFiles_strings]
  · simp [save_output, writeSourceFiles_strings]
  · simp [save_output, writeSourceFiles_strings]

/-- C3 witness: the amended round trip at the concrete canned fixture. -/
theorem C3_round_trip_amended_witness :
    (jlFixture cannedMain.brand = Except.ok (JValue.obj
      [("brand_name", JValue.str "Acme"), ("tagline", JValue.str "Go fast")])) ∧
    (jlFixture cannedMain.arch = Except.ok (JValue.obj [("tech_stack", JValue.str "node")])) ∧
    (jlFixture cannedMain.code = Except.ok (JValue.obj
      ([("main.py", "print(1)")].map fun p => (p.1, JValue.str p.2)))) ∧
    (∃ fin, runPipeline (cannedLLM cannedMain) jlFixture (create_initial_state "Demo") =
        Except.ok fin ∧
      fin.prd_content = cannedMain.prd ∧
      fin.brand_assets = JValue.obj [("brand_name", JValue.str "Acme"), ("tagline", JValue.str "Go fast")] ∧
      fin.architecture_map = JValue.obj [("tech_stack", JValue.str "node")] ∧
      fin.source_code = JValue.obj ([("main.py", "print(1)")].map fun p => (p.1, JValue.str p.2)) ∧
      fin.marketing_plan = cannedMain.marketing ∧
      fin.install_guide = none ∧
      (save_output fin "out").failure = none ∧
      (save_output fin "out").writes =
        [("out" ++ "/PRD.md", cannedMain.prd),
         ("out" ++ "/brand_guide.json", jsonDumps (JValue.obj
           [("brand_name", JValue.str "Acme"), ("tagline", JValue.str "Go fast")])),
         ("out" ++ "/architecture.json", jsonDumps (JValue.obj [("tech_stack", JValue.str "node")]))] ++
        ([("main.py", "print(1)")].map fun p => (pyJoin ("out" ++ "/source_code") p.1, p.2)) ++
        [("out" ++ "/marketing_plan.md", cannedMain.marketing)] ∧
      (save_output fin "out").artifacts =
        [("prd", "out" ++ "/PRD.md"),
         ("brand_assets", "out" ++ "/brand_guide.json"),
         ("architecture", "out" ++ "/architecture.json"),
         ("source_code", "out" ++ "/source_code"),
         ("marketing_plan", "out" ++ "/marketing_plan.md")]) :=
  ⟨jlFixture_brand, jlFixture_arch, jlFixture_code,
   C3_round_trip_amended cannedMain jlFixture "Demo"
     [("brand_name", JValue.str "Acme"), ("tagline", JValue.str "Go fast")]
     [("tech_stack", JValue.str "node")]
     [("main.py", "print(1)")] "out" jlFixture_brand jlFixture_arch jlFixture_code⟩

/-- C3 counterexample: the claim's "six output fields equal the canned values"
is false on the code.  With a full set of six canned responses the compiled
graph completes, but `install_guide` is absent from the final state (the
Onboarding Writer is not part of `create_genesis_graph`), so it does not equal
the canned install-guide value, and the export contains no install-guide
artifact even though it raised no error. -/
theorem C3_round_trip_counterexample :
    runPipeline (cannedLLM cannedMain) jlFixture (create_initial_state "Demo") =
      Except.ok demoFinal ∧
    demoFinal.install_guide = none ∧
    demoFinal.install_guide ≠ some cannedMain.install ∧
    (save_output demoFinal "out").failure = none ∧
    ("install_guide", "out" ++ "/INSTALL_GUIDE.md") ∉ (save_output demoFinal "out").artifacts ∧
    (∀ w ∈ (save_output demoFinal "out").writes, w.1 ≠ "out" ++ "/INSTALL_GUIDE.md") := by
  refine ⟨?_, rfl, by simp [demoFinal, cannedMain], ?_, ?_, ?_⟩
  · exact runPipeline_canned cannedMain "Demo" jlFixture_brand jlFixture_arch jlFixture_code
  · simp [save_output, demoFinal, codeVal, writeSourceFiles, pyJoin]
  · simp [save_output, demoFinal, codeVal, writeSourceFiles, pyJoin]
  · simp only [save_output, demoFinal, codeVal, writeSourceFiles, pyJoin]
    decide

/-- C6: when the pipeline raises after the run record was created (non-zero id)
and marked running, the driver attempts exactly one more record-store call — the
FAILED status update — swallows that attempt's own failure (the returned error
is the original pipeline error either way), re-raises the original error, and
touches neither the file system nor the artifact store: no file is written, no
`artifactsSaved` event and no COMPLETED update occur (those live only on the
success path). -/
theorem C6_driver_failure_path (llm : LLMCall → CallResult)
    (jl : String → Except String JValue) (ops : DbOps)
    (idea startT endT : String) (fs : FileSys) (pid : Nat) (e : String)
    (hcreate : ops.createProject idea = Except.ok pid)
    (hpid : pid ≠ 0)
    (hrun : ops.updateStatus pid ProjectStatus.running = Except.ok ())
    (hfail : runPipeline llm jl (driverInitState idea startT pid) = Except.error e) :
    ∃ b, run_genesis_pipeline llm jl ops idea none startT endT fs =
      (Except.error e, fs,
        [DbEvent.created pid,
         DbEvent.statusUpdated pid ProjectStatus.running true,
         DbEvent.statusUpdated pid ProjectStatus.failed b]) := by
  have hbne : (pid != 0) = true := by simpa using hpid
  unfold run_genesis_pipeline driverBody
  simp only [hcreate, hrun, hfail]
  simp only [driverOnFailure, hbne, if_true]
  cases hupd : ops.updateStatus pid ProjectStatus.failed with
  | ok u =>
    refine ⟨true, ?_⟩
    simp [hupd]
  | error e' =>
    refine ⟨false, ?_⟩
    simp [hupd]

lemma pipeline_cdFails_errors (startT : String) :
    runPipeline llmCdFails jlFixture (driverInitState "Demo" startT 1) =
      Except.error "ReadTimeout" := by
  unfold runPipeline
  simp only [agent_po_cdFails, agent_cd_cdFails]

/-- C6 witness: with a backend whose Brand Designer call times out and a record
store whose FAILED update itself raises, the driver still returns the original
timeout, records the attempted FAILED update, and produces no artifact event. -/
theorem C6_driver_failure_path_witness :
    (opsFixture.createProject "Demo" = Except.ok 1) ∧
    (opsFixture.updateStatus 1 ProjectStatus.running = Except.ok ()) ∧
    (runPipeline llmCdFails jlFixture (driverInitState "Demo" "T0" 1) =
      Except.error "ReadTimeout") ∧
    (∃ b, run_genesis_pipeline llmCdFails jlFixture opsFixture "Demo" none "T0" "T1"
        (fun _ => none) =
      (Except.error "ReadTimeout", (fun _ => none : FileSys),
        [DbEvent.created 1,
         DbEvent.statusUpdated 1 ProjectStatus.running true,
         DbEvent.statusUpdated 1 ProjectStatus.failed b])) :=
  ⟨rfl, rfl, pipeline_cdFails_errors "T0",
   C6_driver_failure_path llmCdFails jlFixture opsFixture "Demo" "T0" "T1"
     (fun _ => none) 1 "ReadTimeout" rfl (by decide) rfl (pipeline_cdFails_errors "T0")⟩

/-- C8: the two fan-out branches carry no dependency on each other in the
execution graph (no directed path either way), each becomes eligible as soon as
the Requirements Drafter has completed regardless of the other's progress, and
under the executor's schedule (each node starting when its predecessors finish,
the superstep's tasks suspending concurrently) injected positive delays on the
two branch calls overlap: the joint completion time of both branches beyond
their common start equals the maximum of the two delays, which is less than
their sum — true overlap, not serialization. -/
theorem C8_fanout_concurrency :
    (¬ NodeReach GNode.creative_director GNode.solutions_architect ∧
     ¬ NodeReach GNode.solutions_architect GNode.creative_director) ∧
    (∀ c : ExecConfig, GNode.product_owner ∈ c.done →
      GNode.creative_director ∉ c.done → GNode.creative_director ∉ c.failed →
      fireable c GNode.creative_director) ∧
    (∀ c : ExecConfig, GNode.product_owner ∈ c.done →
      GNode.solutions_architect ∉ c.done → GNode.solutions_architect ∉ c.failed →
      fireable c GNode.solutions_architect) ∧
    (∀ dur : GNode → Nat,
      0 < dur GNode.creative_director → 0 < dur GNode.solutions_architect →
      est dur GNode.creative_director = dur GNode.product_owner ∧
      est dur GNode.solutions_architect = est dur GNode.creative_director ∧
      est dur GNode.lead_developer - est dur GNode.creative_director =
        max (dur GNode.creative_director) (dur GNode.solutions_architect) ∧
      max (dur GNode.creative_director) (dur GNode.solutions_architect) <
        dur GNode.creative_director + dur GNode.solutions_architect) := by
  refine ⟨branches_independent, ?_, ?_, ?_⟩
  · intro c hpo h1 h2
    refine ⟨h1, h2, ?_⟩
    intro m hm
    rw [show nodePreds GNode.creative_director = [GNode.product_owner] from rfl] at hm
    simp at hm
    exact hm ▸ hpo
  · intro c hpo h1 h2
    refine ⟨h1, h2, ?_⟩
    intro m hm
    rw [show nodePreds GNode.solutions_architect = [GNode.product_owner] from rfl] at hm
    simp at hm
    exact hm ▸ hpo
  · intro dur h1 h2
    have ecd : est dur GNode.creative_director = max 0 (0 + dur GNode.product_owner) := rfl
    have esa : est dur GNode.solutions_architect = max 0 (0 + dur GNode.product_owner) := rfl
    have eld : est dur GNode.lead_developer =
        max (max 0 (max 0 (0 + dur GNode.product_owner) + dur GNode.solutions_architect))
          (max 0 (0 + dur GNode.product_owner) + dur GNode.creative_director) := rfl
    refine ⟨?_, ?_, ?_, ?_⟩
    · rw [ecd]
      omega
    · rw [esa, ecd]
    · rw [eld, ecd]
      omega
    · omega

/-- C8 witness: with delays 3 and 5 on the two branch calls (and 1 elsewhere),
both branches start at time 1, the join is eligible at time 1 + 5, and the
branch phase takes max 3 5 = 5 < 3 + 5. -/
theorem C8_fanout_concurrency_witness :
    (0 < 3 ∧ 0 < 5) ∧
    (¬ NodeReach GNode.creative_director GNode.solutions_architect ∧
     ¬ NodeReach GNode.solutions_architect GNode.creative_director) ∧
    (est (fun n => match n with
        | GNode.creative_director => 3
        | GNode.solutions_architect => 5
        | _ => 1) GNode.creative_director = 1 ∧
     est (fun n => match n with
        | GNode.creative_director => 3
        | GNode.solutions_architect => 5
        | _ => 1) GNode.lead_developer -
       est (fun n => match n with
        | GNode.creative_director => 3
        | GNode.solutions_architect => 5
        | _ => 1) GNode.creative_director = 5 ∧
     (5 : Nat) < 3 + 5) := by
  have h := C8_fanout_concurrency
  have h4 := h.2.2.2 (fun n => match n with
    | GNode.creative_director => 3
    | GNode.solutions_architect => 5
    | _ => 1) (by decide) (by decide)
  exact ⟨⟨by decide, by decide⟩, h.1, h4.1, h4.2.2.1, by decide⟩
